import Mathlib

/-!
# SF Haven: routing, validation and geospatial queries

A shallow embedding of the request handlers of the SF Haven backend
(`backend/src/routes/*.js`) together with the semantics of the SQL statements
they send to PostgreSQL/PostGIS.

* Numbers that JavaScript holds as doubles (latitudes, longitudes, distances)
  are modelled as rationals; every finite double is one, and only their order
  is used.
* Instants are integers (milliseconds since the epoch), dates are day numbers.
* A handler returns what it did with the response together with the list of
  SQL statements it issued, in order.
-/

namespace SFHaven

/-! ## Request values and the express-validator checks -/

/-- A raw request value (always a string on the wire) together with the way
validator.js and the JS runtime read it: `asFloat` is `parseFloat` of the string
when it has float syntax, `asInt` is `parseInt` of it when it has integer
syntax. -/
structure Param where
  raw : String
  asFloat : Option Rat
  asInt : Option Int
deriving DecidableEq, Repr

/-- One entry of `errors.array()`. -/
structure ValidationError where
  path : String
  msg : String
deriving DecidableEq, Repr

/-- The check `isFloat` with both bounds: float syntax and `min ≤ value ≤ max`. -/
def isFloat (min max : Rat) (p : Param) : Bool :=
  match p.asFloat with
  | some q => decide (min ≤ q) && decide (q ≤ max)
  | none => false

/-- The check `isInt` with both bounds: integer syntax and `min ≤ value ≤ max`. -/
def isInt (min max : Int) (p : Param) : Bool :=
  match p.asInt with
  | some i => decide (min ≤ i) && decide (i ≤ max)
  | none => false

/-- The check `isBoolean` (strict form): one of the four accepted spellings. -/
def isBoolean (p : Param) : Bool :=
  p.raw = "true" || p.raw = "false" || p.raw = "1" || p.raw = "0"

/-- The check `isIn(values)`. -/
def isIn (values : List String) (p : Param) : Bool :=
  values.contains p.raw

/-- A required field: an absent value fails the check like any bad value. -/
def required (path msg : String) (check : Param → Bool) (v : Option Param) :
    List ValidationError :=
  match v with
  | some p => if check p then [] else [⟨path, msg⟩]
  | none => [⟨path, msg⟩]

/-- A field marked `.optional()`: checked only when present. -/
def optional (path msg : String) (check : Param → Bool) (v : Option Param) :
    List ValidationError :=
  match v with
  | some p => if check p then [] else [⟨path, msg⟩]
  | none => []

/-- JavaScript `parseFloat` on a request value. NaN, which only arises for a
value that `isFloat` rejects or for a missing one, is represented by 0; no
handler reaches a call with such a value. -/
def parseFloat (v : Option Param) : Rat :=
  match v with
  | some p => p.asFloat.getD 0
  | none => 0

/-- JavaScript `parseInt` on a request value, with the destructuring default
used when the value is missing (`radius = 1000` and the like). -/
def parseInt (dflt : Int) (v : Option Param) : Int :=
  match v with
  | some p => p.asInt.getD 0
  | none => dflt

/-- The default message of express-validator. -/
def invalidValue : String := "Invalid value"

/-! ## The JavaScript `Date` arithmetic used by the report handler (ECMA-262) -/

/-- The host time zone as the runtime sees it. `offsetAtUtc t` is
`LocalTZA(t, true)`, the offset in force at the UTC instant `t`;
`offsetAtLocal t` is `LocalTZA(t, false)`, the offset used to read the
wall-clock value `t`. Both in milliseconds. -/
structure TimeZone where
  offsetAtUtc : Int → Int
  offsetAtLocal : Int → Int

def msPerSecond : Int := 1000
def msPerMinute : Int := 60000
def msPerHour : Int := 3600000
def msPerDay : Int := 86400000

def LocalTime (tz : TimeZone) (t : Int) : Int := t + tz.offsetAtUtc t
def UTC (tz : TimeZone) (t : Int) : Int := t - tz.offsetAtLocal t
def Day (t : Int) : Int := t / msPerDay
def HourFromTime (t : Int) : Int := (t / msPerHour) % 24
def MinFromTime (t : Int) : Int := (t / msPerMinute) % 60
def SecFromTime (t : Int) : Int := (t / msPerSecond) % 60
def msFromTime (t : Int) : Int := t % msPerSecond
def MakeTime (hour min sec ms : Int) : Int :=
  hour * msPerHour + min * msPerMinute + sec * msPerSecond + ms
def MakeDate (day time : Int) : Int := day * msPerDay + time

/-- The method `Date.prototype.getHours`: the hour of the local wall clock. -/
def getHours (tz : TimeZone) (d : Int) : Int := HourFromTime (LocalTime tz d)

/-- The method `Date.prototype.setHours(hour)`: replace the hour of the local
wall-clock reading, keep its minutes, seconds and milliseconds, and convert
back. (TimeClip is the identity on every date the handler can see.) -/
def setHours (tz : TimeZone) (d : Int) (hour : Int) : Int :=
  let t := LocalTime tz d
  UTC tz (MakeDate (Day t) (MakeTime hour (MinFromTime t) (SecFromTime t) (msFromTime t)))

/-- A host running on UTC. -/
def utcZone : TimeZone := ⟨fun _ => 0, fun _ => 0⟩

/-- The rules of America/Los_Angeles around the start of daylight saving time on
10 March 2024: UTC-8 until 10:00:00Z (02:00 local), UTC-7 from then on; a
wall-clock value before 03:00 local is read with the earlier offset. -/
def pacificSpring2024 : TimeZone :=
  ⟨fun t => if t < 1710064800000 then -28800000 else -25200000,
   fun t => if t < 1710039600000 then -28800000 else -25200000⟩

/-! ## Express routing -/

inductive Method
  | GET
  | POST
  | HEAD
  | PUT
  | PATCH
  | DELETE
  | OPTIONS
deriving DecidableEq, Repr

/-- Whether a route registered with `router.get`, `router.post` and so on takes
a request of method `m`: its own method, and for a GET route also HEAD. -/
def handlesMethod (routeMethod m : Method) : Bool :=
  decide (routeMethod = m) || (decide (m = Method.HEAD) && decide (routeMethod = Method.GET))

/-- One segment of a route path: a literal or a named parameter (`:id`); and
the place where a mount path ends and the path of a route of the mounted router
begins. -/
inductive PathSeg
  | lit (s : String)
  | param (name : String)
  | mountEnd
deriving DecidableEq, Repr

/-- Whether a segment of the request path matches a literal segment of a route
path. Express builds its routers with the default options, so the comparison
ignores the case of the letters (the `i` flag of the route's regular
expression, which for the ASCII literals of the routes folds ASCII letters
only). -/
def sameLiteral (literal segment : String) : Bool :=
  decide (literal.toList.map Char.toLower = segment.toList.map Char.toLower)

/-- Match a route path against the segments of the request path (the parts
between the slashes after the leading one, so that a trailing slash leaves a
last empty segment); on success the bindings of `req.params`. Literal segments
are compared without regard to case, a named parameter takes one non-empty
segment and keeps its spelling, and, routing being non-strict by default, one
trailing slash after the route path is ignored. Where a mount path ends,
`app.use` strips it together with the slash after it when that slash is
followed by the end of the path or by another slash (its pattern ends in an
optional slash in front of a slash or the end), so one empty segment there is
passed over. -/
def matchPath : List PathSeg → List String → Option (List (String × String))
  | [], [] => some []
  | [], x :: xs => if x = "" ∧ xs = [] then some [] else none
  | PathSeg.lit s :: ps, x :: xs => if sameLiteral s x then matchPath ps xs else none
  | PathSeg.param n :: ps, x :: xs =>
    if x = "" then none else (matchPath ps xs).map (fun b => (n, x) :: b)
  | PathSeg.mountEnd :: ps, [] => matchPath ps []
  | PathSeg.mountEnd :: ps, x :: xs =>
    if x = "" then matchPath ps xs else matchPath ps (x :: xs)
  | PathSeg.lit _ :: _, [] => none
  | PathSeg.param _ :: _, [] => none

/-- A route registered on a router, in registration order. -/
structure Route (H : Type) where
  method : Method
  path : List PathSeg
  handler : H

/-- What running a route's handler stack does: it sends a response, hands the
request on with `next()`, or hands an error on with `next(error)`. -/
inductive Outcome (β : Type)
  | json (status : Nat) (body : β)
  | next
  | nextError (error : String)
deriving DecidableEq, Repr

/-- The result of a handler: the outcome and the SQL statements issued. -/
structure Handled (β S : Type) where
  outcome : Outcome β
  queries : List S
deriving DecidableEq, Repr

/-- Router dispatch: the routes are tried in registration order; the first one
whose method and path match runs; only if it hands the request on with `next()`
is a later route tried. `none` means that the request falls through the router. -/
def dispatch {H β S : Type} (run : H → List (String × String) → Handled β S) :
    List (Route H) → Method → List String → Option (H × Handled β S)
  | [], _, _ => none
  | r :: rs, m, path =>
    if handlesMethod r.method m then
      match matchPath r.path path with
      | some params =>
        match run r.handler params with
        | ⟨Outcome.next, _⟩ => dispatch run rs m path
        | res => some (r.handler, res)
      | none => dispatch run rs m path
    else dispatch run rs m path

/-! ## The database: tables, PostGIS and the ordering of result sets -/

/-- A geography point; `ST_MakePoint(x, y)` takes the longitude first. -/
structure Point where
  lat : Rat
  lng : Rat
deriving DecidableEq, Repr

def ST_MakePoint (x y : Rat) : Point := ⟨y, x⟩
def ST_Y (p : Point) : Rat := p.lat
def ST_X (p : Point) : Rat := p.lng

/-- A row of table `services`. The descriptive columns that the handlers only
copy (subcategory, description, address, phone, hours and so on) are kept
together in `other`. -/
structure Service where
  id : String
  name : String
  category : String
  location : Point
  is_active : Bool
  other : List (String × String)
deriving DecidableEq, Repr

/-- A row of table `parking_zones`; the geometry is the polygon ring. -/
structure ParkingZone where
  id : String
  zone_type : String
  geometry : List Point
  restrictions : String
  street_cleaning : Option String
  time_limits : Option String
  notes : String
  effective_date : Option Int
  expiry_date : Option Int
deriving DecidableEq, Repr

/-- A row of table `parking_alerts`. -/
structure ParkingAlert where
  id : String
  location : Point
  alert_type : String
  description : Option String
  severity : Option String
  reported_by : Option String
  created_at : Int
  expires_at : Int
deriving DecidableEq, Repr

/-- A row of table `emergency_resources`. -/
structure EmergencyResource where
  id : String
  name : String
  type : String
  phone : String
  address : String
  location : Point
  available_24_7 : Bool
  description : String
  is_active : Bool
deriving DecidableEq, Repr

/-- The columns selected by the zones listing. -/
structure ZoneRow where
  id : String
  zone_type : String
  restrictions : String
  street_cleaning : Option String
  time_limits : Option String
  geometry : List Point
  notes : String
deriving DecidableEq, Repr

/-- The columns selected by the alerts listing. -/
structure AlertRow where
  id : String
  alert_type : String
  description : Option String
  severity : Option String
  latitude : Rat
  longitude : Rat
  created_at : Int
  expires_at : Int
  distance_meters : Rat
deriving DecidableEq, Repr

/-- The columns selected by the services search. -/
structure ServiceRow where
  id : String
  name : String
  category : String
  latitude : Rat
  longitude : Rat
  other : List (String × String)
  distance_meters : Rat
deriving DecidableEq, Repr

/-- The columns selected by the service detail and offline bundle queries. -/
structure ServiceInfoRow where
  id : String
  name : String
  category : String
  latitude : Rat
  longitude : Rat
  other : List (String × String)
deriving DecidableEq, Repr

/-- The columns selected by the nearest emergency resources query. -/
structure EmergencyRow where
  id : String
  name : String
  type : String
  phone : String
  address : String
  latitude : Rat
  longitude : Rat
  available_24_7 : Bool
  description : String
  distance_meters : Rat
deriving DecidableEq, Repr

/-- A row returned by the SQL function `check_parking_legality`. -/
structure LegalityRow where
  is_legal : Option Bool
  zone_type : String
  restrictions : String
  time_limit : Option Int
deriving DecidableEq, Repr

/-- How the database orders a result set for `ORDER BY`: some rearrangement of
the rows that is ascending in the sort key. SQL leaves the order of rows with
equal keys to the implementation, so nothing more is promised. -/
structure SortEngine where
  sort : {α : Type} → (α → α → Bool) → List α → List α
  perm : ∀ {α : Type} (le : α → α → Bool) (l : List α), (sort le l).Perm l
  sorted : ∀ {α : Type} (le : α → α → Bool) (l : List α),
    (∀ a b, le a b = true ∨ le b a = true) →
    (∀ a b c, le a b = true → le b c = true → le a c = true) →
    (sort le l).Pairwise (fun a b => le a b = true)

/-- A snapshot of the database at the moment a statement runs. `ST_Distance`
(between two points) and `zoneDistance` (from a polygon to a point) are the
geography distances of PostGIS in metres; `textLe` is the collation order of
text columns; `check_parking_legality` is the SQL function of that name, whose
definition is in the schema and not in the sources; `newId` is the key that the
next `INSERT ... RETURNING id` yields. -/
structure Postgres where
  services : List Service
  parking_zones : List ParkingZone
  parking_alerts : List ParkingAlert
  emergency_resources : List EmergencyResource
  CURRENT_TIMESTAMP : Int
  CURRENT_DATE : Int
  ST_Distance : Point → Point → Rat
  zoneDistance : List Point → Point → Rat
  textLe : String → String → Bool
  check_parking_legality : Rat → Rat → Int → List LegalityRow
  newId : String
  engine : SortEngine

/-- The PostGIS test `ST_DWithin` on two points: their distance is at most `r`. -/
def ST_DWithin (pg : Postgres) (a b : Point) (r : Int) : Bool :=
  decide (pg.ST_Distance a b ≤ (r : Rat))

/-- The PostGIS test `ST_DWithin` on a polygon and a point. -/
def zoneDWithin (pg : Postgres) (g : List Point) (b : Point) (r : Int) : Bool :=
  decide (pg.zoneDistance g b ≤ (r : Rat))

/-- The date bounds in the `WHERE` clause of the zones listing. -/
def zoneInForce (today : Int) (z : ParkingZone) : Bool :=
  (match z.effective_date with
   | none => true
   | some d => decide (d ≤ today)) &&
  (match z.expiry_date with
   | none => true
   | some d => decide (d ≥ today))

def zoneRow (z : ParkingZone) : ZoneRow :=
  ⟨z.id, z.zone_type, z.restrictions, z.street_cleaning, z.time_limits, z.geometry, z.notes⟩

def alertRow (pg : Postgres) (p : Point) (a : ParkingAlert) : AlertRow :=
  ⟨a.id, a.alert_type, a.description, a.severity, ST_Y a.location, ST_X a.location,
   a.created_at, a.expires_at, pg.ST_Distance a.location p⟩

def serviceRow (pg : Postgres) (p : Point) (s : Service) : ServiceRow :=
  ⟨s.id, s.name, s.category, ST_Y s.location, ST_X s.location, s.other,
   pg.ST_Distance s.location p⟩

def serviceInfoRow (s : Service) : ServiceInfoRow :=
  ⟨s.id, s.name, s.category, ST_Y s.location, ST_X s.location, s.other⟩

def emergencyRow (pg : Postgres) (p : Point) (e : EmergencyResource) : EmergencyRow :=
  ⟨e.id, e.name, e.type, e.phone, e.address, ST_Y e.location, ST_X e.location,
   e.available_24_7, e.description, pg.ST_Distance e.location p⟩

/-- The zones listing:
`SELECT ... FROM parking_zones WHERE ST_DWithin(geometry, point, $3)
 AND (effective_date IS NULL OR effective_date <= CURRENT_DATE)
 AND (expiry_date IS NULL OR expiry_date >= CURRENT_DATE) ORDER BY zone_type`. -/
def Postgres.zonesNear (pg : Postgres) (lat lng : Rat) (radius : Int) : List ZoneRow :=
  let p := ST_MakePoint lng lat
  pg.engine.sort (fun a b => pg.textLe a.zone_type b.zone_type)
    ((pg.parking_zones.filter
      (fun z => zoneDWithin pg z.geometry p radius && zoneInForce pg.CURRENT_DATE z)).map zoneRow)

/-- The survivors of the `WHERE` clause of the alerts listing:
`expires_at > CURRENT_TIMESTAMP AND ST_DWithin(location, point, $3)`. -/
def Postgres.activeAlerts (pg : Postgres) (p : Point) (radius : Int) : List ParkingAlert :=
  pg.parking_alerts.filter
    (fun a => decide (a.expires_at > pg.CURRENT_TIMESTAMP) && ST_DWithin pg a.location p radius)

/-- The alerts listing: the survivors, with their distance to the point,
`ORDER BY distance_meters` (before the `LIMIT`). -/
def Postgres.alertsOrdered (pg : Postgres) (lat lng : Rat) (radius : Int) : List AlertRow :=
  let p := ST_MakePoint lng lat
  pg.engine.sort (fun a b => decide (a.distance_meters ≤ b.distance_meters))
    ((pg.activeAlerts p radius).map (alertRow pg p))

/-- The alerts listing: `... ORDER BY distance_meters LIMIT 20`. -/
def Postgres.alertsNear (pg : Postgres) (lat lng : Rat) (radius : Int) : List AlertRow :=
  (pg.alertsOrdered lat lng radius).take 20

/-- The survivors of the `WHERE` clause of the services search:
`is_active = true AND ST_DWithin(location, point, $3)` and, when the handler
appended it, `AND category = $4`. -/
def Postgres.matchingServices (pg : Postgres) (p : Point) (radius : Int)
    (category : Option String) : List Service :=
  pg.services.filter
    (fun s => s.is_active && ST_DWithin pg s.location p radius &&
      (match category with
       | none => true
       | some c => decide (s.category = c)))

/-- The services search: the survivors `ORDER BY distance_meters` (before the
`LIMIT`). -/
def Postgres.servicesOrdered (pg : Postgres) (lat lng : Rat) (radius : Int)
    (category : Option String) : List ServiceRow :=
  let p := ST_MakePoint lng lat
  pg.engine.sort (fun a b => decide (a.distance_meters ≤ b.distance_meters))
    ((pg.matchingServices p radius category).map (serviceRow pg p))

/-- The services search: `... ORDER BY distance_meters LIMIT 50`. -/
def Postgres.servicesNear (pg : Postgres) (lat lng : Rat) (radius : Int)
    (category : Option String) : List ServiceRow :=
  (pg.servicesOrdered lat lng radius category).take 50

/-- The service detail query: `WHERE id = $1 AND is_active = true`. -/
def Postgres.serviceById (pg : Postgres) (id : String) : List ServiceInfoRow :=
  (pg.services.filter (fun s => decide (s.id = id) && s.is_active)).map serviceInfoRow

/-- The offline bundle query: active services within the radius,
`ORDER BY category, name`. -/
def Postgres.bundleServices (pg : Postgres) (lat lng : Rat) (radius : Int) :
    List ServiceInfoRow :=
  let p := ST_MakePoint lng lat
  pg.engine.sort
    (fun a b => if a.category = b.category then pg.textLe a.name b.name
      else pg.textLe a.category b.category)
    ((pg.services.filter (fun s => s.is_active && ST_DWithin pg s.location p radius)).map
      serviceInfoRow)

/-- The nearest emergency resources: `WHERE is_active = true` and, when the
handler appended it, `AND type = $3`; `ORDER BY distance_meters` (before the
`LIMIT`). -/
def Postgres.emergencyOrdered (pg : Postgres) (lat lng : Rat) (type : Option String) :
    List EmergencyRow :=
  let p := ST_MakePoint lng lat
  pg.engine.sort (fun a b => decide (a.distance_meters ≤ b.distance_meters))
    ((pg.emergency_resources.filter
      (fun e => e.is_active &&
        (match type with
         | none => true
         | some t => decide (e.type = t)))).map (emergencyRow pg p))

/-- The nearest emergency resources: `... ORDER BY distance_meters LIMIT 10`. -/
def Postgres.emergencyNearest (pg : Postgres) (lat lng : Rat) (type : Option String) :
    List EmergencyRow :=
  (pg.emergencyOrdered lat lng type).take 10

/-! ## The handlers' view of the database -/

/-- The SQL statements the handlers issue, with their bound parameters (the
constant strings and the metadata JSON of the activity log are left out). -/
inductive Sql
  | selectZonesNear (lat lng : Rat) (radius : Int)
  | selectCheckParkingLegality (lat lng : Rat)
  | insertParkingAlert (lat lng : Option Param) (type : Option Param)
      (description : Option String) (userId : Option String) (expiresAt : Int)
  | selectAlertsNear (lat lng : Rat) (radius : Int)
  | selectServicesNear (lat lng : Rat) (radius : Int) (category : Option String)
  | insertSearchActivity (userId : String) (lat lng : Rat)
  | selectServiceById (id : String)
  | insertViewActivity (userId : String) (id : String)
  | selectBundleServices (lat lng : Rat) (radius : Int)
  | selectEmergencyNearest (lat lng : Rat) (type : Option String)
deriving DecidableEq, Repr

/-- The module `db` as the handlers use it: `db.query(text, params)` either
yields `result.rows` or throws. One field per statement text. -/
structure Db where
  zonesNear : Rat → Rat → Int → Except String (List ZoneRow)
  checkParkingLegality : Rat → Rat → Except String (List LegalityRow)
  insertParkingAlert : Option Param → Option Param → Option Param → Option String →
    Option String → Int → Except String (List String)
  alertsNear : Rat → Rat → Int → Except String (List AlertRow)
  servicesNear : Rat → Rat → Int → Option String → Except String (List ServiceRow)
  insertSearchActivity : String → Rat → Rat → Except String Unit
  serviceById : String → Except String (List ServiceInfoRow)
  insertViewActivity : String → String → Except String Unit
  bundleServices : Rat → Rat → Int → Except String (List ServiceInfoRow)
  emergencyNearest : Rat → Rat → Option String → Except String (List EmergencyRow)

/-- A database that is up: every statement is answered from the snapshot. -/
def Postgres.db (pg : Postgres) : Db where
  zonesNear lat lng radius := Except.ok (pg.zonesNear lat lng radius)
  checkParkingLegality lat lng :=
    Except.ok (pg.check_parking_legality lat lng pg.CURRENT_TIMESTAMP)
  insertParkingAlert _ _ _ _ _ _ := Except.ok [pg.newId]
  alertsNear lat lng radius := Except.ok (pg.alertsNear lat lng radius)
  servicesNear lat lng radius category := Except.ok (pg.servicesNear lat lng radius category)
  insertSearchActivity _ _ _ := Except.ok ()
  serviceById id := Except.ok (pg.serviceById id)
  insertViewActivity _ _ := Except.ok ()
  bundleServices lat lng radius := Except.ok (pg.bundleServices lat lng radius)
  emergencyNearest lat lng type := Except.ok (pg.emergencyNearest lat lng type)

/-! ## Requests and responses -/

/-- The query string, `req.query`. -/
structure Query where
  lat : Option Param
  lng : Option Param
  radius : Option Param
  category : Option Param
  open_now : Option Param
  type : Option Param
deriving DecidableEq, Repr

/-- The JSON body of a report, `req.body`. A description is a string or some
other JSON value. -/
structure ReportBody where
  location_lat : Option Param
  location_lng : Option Param
  type : Option Param
  description : Option (Option String)
deriving DecidableEq, Repr

/-- An incoming request. `user` is the `userId` of `req.user` as left by the
middleware `optionalAuth` of `middleware/auth.js`, which is not among the
sources: it runs in front of some handlers, sets `req.user` when the request
carries a token it accepts, and passes every request on without touching the
database. -/
structure Request where
  user : Option String
  query : Query
  body : ReportBody
deriving DecidableEq, Repr

/-- The JSON bodies the handlers send. -/
inductive Body
  | errors (errors : List ValidationError)
  | zones (count : Nat) (zones : List ZoneRow)
  | noParkingInformation (is_legal : Option Bool) (status : String) (message : String)
  | legality (is_legal : Option Bool) (status : String) (zone_type : String)
      (restrictions : String) (time_limit_minutes : Option Int) (checked_at : Int)
  | reportSubmitted (report_id : String) (message : String) (expires_at : Int)
  | alerts (count : Nat) (alerts : List AlertRow)
  | services (count : Nat) (services : List ServiceRow)
  | service (row : ServiceInfoRow)
  | error (error : String)
  | bundle (generated_at : Int) (center : Point) (radius_meters : Int)
      (services : List ServiceInfoRow) (version : String)
  | resources (location : Point) (resources : List EmergencyRow)
  | anonymousCreated (anonymous_id : String) (access_token : String) (expires_in : Nat)
  | verified (valid : Bool) (userId : String)
  | invalidToken (valid : Bool) (error : String)
deriving DecidableEq, Repr

abbrev Result := Handled Body Sql

/-- The statement `res.status(400).json(errors.array())`, before any query. -/
def badRequest (errors : List ValidationError) : Result :=
  ⟨Outcome.json 400 (Body.errors errors), []⟩

/-! ## routes/parking.js -/

def zonesValidators (q : Query) : List ValidationError :=
  required "lat" invalidValue (isFloat (-90) 90) q.lat ++
  required "lng" invalidValue (isFloat (-180) 180) q.lng ++
  optional "radius" invalidValue (isInt 100 10000) q.radius

/-- The handler `GET /parking/zones`. -/
def parkingZones (db : Db) (req : Request) : Result :=
  let errors := zonesValidators req.query
  if !errors.isEmpty then badRequest errors
  else
    let lat := parseFloat req.query.lat
    let lng := parseFloat req.query.lng
    let radius := parseInt 1000 req.query.radius
    match db.zonesNear lat lng radius with
    | Except.ok rows =>
      ⟨Outcome.json 200 (Body.zones rows.length rows), [Sql.selectZonesNear lat lng radius]⟩
    | Except.error e => ⟨Outcome.nextError e, [Sql.selectZonesNear lat lng radius]⟩

def checkValidators (q : Query) : List ValidationError :=
  required "lat" invalidValue (isFloat (-90) 90) q.lat ++
  required "lng" invalidValue (isFloat (-180) 180) q.lng

/-- The handler `GET /parking/check`; `now` is the clock read by `new Date()`. -/
def parkingCheck (db : Db) (now : Int) (req : Request) : Result :=
  let errors := checkValidators req.query
  if !errors.isEmpty then badRequest errors
  else
    let lat := parseFloat req.query.lat
    let lng := parseFloat req.query.lng
    match db.checkParkingLegality lat lng with
    | Except.ok [] =>
      ⟨Outcome.json 200 (Body.noParkingInformation none "unknown"
          "No parking information available for this location"),
        [Sql.selectCheckParkingLegality lat lng]⟩
    | Except.ok (zone :: _) =>
      ⟨Outcome.json 200 (Body.legality zone.is_legal
          (if zone.is_legal = some true then "safe" else "restricted")
          zone.zone_type zone.restrictions zone.time_limit now),
        [Sql.selectCheckParkingLegality lat lng]⟩
    | Except.error e => ⟨Outcome.nextError e, [Sql.selectCheckParkingLegality lat lng]⟩

def reportValidators (b : ReportBody) : List ValidationError :=
  required "location.lat" invalidValue (isFloat (-90) 90) b.location_lat ++
  required "location.lng" invalidValue (isFloat (-180) 180) b.location_lng ++
  required "type" invalidValue (isIn ["enforcement", "safe", "hazard"]) b.type ++
  (match b.description with
   | some none => [⟨"description", invalidValue⟩]
   | _ => [])

/-- The expiry computed by the report handler from `new Date()`:
`setHours(getHours() + 2)` for an enforcement report, `+ 24` otherwise. -/
def reportExpiresAt (tz : TimeZone) (now : Int) (type : String) : Int :=
  if type = "enforcement" then setHours tz now (getHours tz now + 2)
  else setHours tz now (getHours tz now + 24)

/-- The handler `POST /parking/report`; `tz` is the time zone of the host and
`now` the clock read by `new Date()`. -/
def parkingReport (db : Db) (tz : TimeZone) (now : Int) (req : Request) : Result :=
  let errors := reportValidators req.body
  if !errors.isEmpty then badRequest errors
  else
    let type := (req.body.type.map (fun p => p.raw)).getD ""
    let description := req.body.description.join
    let userId := req.user.bind (fun u => if u = "" then none else some u)
    let expiresAt := reportExpiresAt tz now type
    let stmt := Sql.insertParkingAlert req.body.location_lat req.body.location_lng
      req.body.type description userId expiresAt
    match db.insertParkingAlert req.body.location_lat req.body.location_lng
        req.body.type description userId expiresAt with
    | Except.ok (id :: _) =>
      ⟨Outcome.json 201 (Body.reportSubmitted id "Report submitted successfully" expiresAt),
        [stmt]⟩
    | Except.ok [] => ⟨Outcome.nextError "TypeError", [stmt]⟩
    | Except.error e => ⟨Outcome.nextError e, [stmt]⟩

def alertsValidators (q : Query) : List ValidationError :=
  required "lat" invalidValue (isFloat (-90) 90) q.lat ++
  required "lng" invalidValue (isFloat (-180) 180) q.lng ++
  optional "radius" invalidValue (isInt 100 5000) q.radius

/-- The handler `GET /parking/alerts`. -/
def parkingAlerts (db : Db) (req : Request) : Result :=
  let errors := alertsValidators req.query
  if !errors.isEmpty then badRequest errors
  else
    let lat := parseFloat req.query.lat
    let lng := parseFloat req.query.lng
    let radius := parseInt 2000 req.query.radius
    match db.alertsNear lat lng radius with
    | Except.ok rows =>
      ⟨Outcome.json 200 (Body.alerts rows.length rows), [Sql.selectAlertsNear lat lng radius]⟩
    | Except.error e => ⟨Outcome.nextError e, [Sql.selectAlertsNear lat lng radius]⟩

/-! ## routes/services.js -/

def searchValidators (q : Query) : List ValidationError :=
  required "lat" "Invalid latitude" (isFloat (-90) 90) q.lat ++
  required "lng" "Invalid longitude" (isFloat (-180) 180) q.lng ++
  optional "radius" "Radius must be between 100 and 50000 meters" (isInt 100 50000) q.radius ++
  optional "category" invalidValue (fun _ => true) q.category ++
  optional "open_now" invalidValue isBoolean q.open_now

/-- The test `if (category)`: a missing or empty category adds no condition. -/
def categoryFilter (c : Option Param) : Option String :=
  match c with
  | some p => if p.raw = "" then none else some p.raw
  | none => none

/-- The handler `GET /services/`. -/
def servicesSearch (db : Db) (req : Request) : Result :=
  let errors := searchValidators req.query
  if !errors.isEmpty then badRequest errors
  else
    let lat := parseFloat req.query.lat
    let lng := parseFloat req.query.lng
    let radius := parseInt 5000 req.query.radius
    let category := categoryFilter req.query.category
    let select := Sql.selectServicesNear lat lng radius category
    match db.servicesNear lat lng radius category with
    | Except.ok rows =>
      match req.user with
      | some userId =>
        match db.insertSearchActivity userId lat lng with
        | Except.ok _ =>
          ⟨Outcome.json 200 (Body.services rows.length rows),
            [select, Sql.insertSearchActivity userId lat lng]⟩
        | Except.error e =>
          ⟨Outcome.nextError e, [select, Sql.insertSearchActivity userId lat lng]⟩
      | none => ⟨Outcome.json 200 (Body.services rows.length rows), [select]⟩
    | Except.error e => ⟨Outcome.nextError e, [select]⟩

/-- The handler `GET /services/:id`. -/
def serviceDetail (db : Db) (req : Request) (id : String) : Result :=
  match db.serviceById id with
  | Except.ok [] => ⟨Outcome.json 404 (Body.error "Service not found"), [Sql.selectServiceById id]⟩
  | Except.ok (row :: _) =>
    match req.user with
    | some userId =>
      match db.insertViewActivity userId id with
      | Except.ok _ =>
        ⟨Outcome.json 200 (Body.service row),
          [Sql.selectServiceById id, Sql.insertViewActivity userId id]⟩
      | Except.error e =>
        ⟨Outcome.nextError e, [Sql.selectServiceById id, Sql.insertViewActivity userId id]⟩
    | none => ⟨Outcome.json 200 (Body.service row), [Sql.selectServiceById id]⟩
  | Except.error e => ⟨Outcome.nextError e, [Sql.selectServiceById id]⟩

def bundleValidators (q : Query) : List ValidationError :=
  required "lat" invalidValue (isFloat (-90) 90) q.lat ++
  required "lng" invalidValue (isFloat (-180) 180) q.lng ++
  optional "radius" invalidValue (isInt 1000 20000) q.radius

/-- The handler `GET /services/offline-bundle`. -/
def servicesOfflineBundle (db : Db) (now : Int) (req : Request) : Result :=
  let errors := bundleValidators req.query
  if !errors.isEmpty then badRequest errors
  else
    let lat := parseFloat req.query.lat
    let lng := parseFloat req.query.lng
    let radius := parseInt 10000 req.query.radius
    match db.bundleServices lat lng radius with
    | Except.ok rows =>
      ⟨Outcome.json 200 (Body.bundle now ⟨lat, lng⟩ radius rows "1.0"),
        [Sql.selectBundleServices lat lng radius]⟩
    | Except.error e => ⟨Outcome.nextError e, [Sql.selectBundleServices lat lng radius]⟩

/-- The handlers registered on the services router. -/
inductive ServicesRoute
  | search
  | detail
  | offlineBundle
deriving DecidableEq, Repr

/-- The services router, its routes in the order of the `router.get` calls:
`'/'`, then `'/:id'`, then `'/offline-bundle'`. -/
def servicesRouter : List (Route ServicesRoute) :=
  [⟨Method.GET, [], ServicesRoute.search⟩,
   ⟨Method.GET, [PathSeg.param "id"], ServicesRoute.detail⟩,
   ⟨Method.GET, [PathSeg.lit "offline-bundle"], ServicesRoute.offlineBundle⟩]

/-- Run the handler stack of a services route with the matched `req.params`. -/
def runServicesRoute (db : Db) (now : Int) (req : Request) :
    ServicesRoute → List (String × String) → Result
  | ServicesRoute.search, _ => servicesSearch db req
  | ServicesRoute.detail, params => serviceDetail db req ((params.lookup "id").getD "")
  | ServicesRoute.offlineBundle, _ => servicesOfflineBundle db now req

/-- A request arriving at the services router; `path` holds the segments after
the mount point `/api/v1/services`. -/
def servicesApp (db : Db) (now : Int) (req : Request) (m : Method) (path : List String) :
    Option (ServicesRoute × Result) :=
  dispatch (runServicesRoute db now req) servicesRouter m path

/-! ## routes/emergency.js -/

def nearestValidators (q : Query) : List ValidationError :=
  required "lat" invalidValue (isFloat (-90) 90) q.lat ++
  required "lng" invalidValue (isFloat (-180) 180) q.lng ++
  optional "type" invalidValue (isIn ["shelter", "medical", "crisis", "all"]) q.type

/-- The test `type !== 'all'` with the default `type = 'all'`. -/
def typeFilter (t : Option Param) : Option String :=
  match t with
  | some p => if p.raw = "all" then none else some p.raw
  | none => none

/-- The handler `GET /emergency/nearest`. -/
def emergencyNearest (db : Db) (req : Request) : Result :=
  let errors := nearestValidators req.query
  if !errors.isEmpty then badRequest errors
  else
    let lat := parseFloat req.query.lat
    let lng := parseFloat req.query.lng
    let type := typeFilter req.query.type
    match db.emergencyNearest lat lng type with
    | Except.ok rows =>
      ⟨Outcome.json 200 (Body.resources ⟨lat, lng⟩ rows), [Sql.selectEmergencyNearest lat lng type]⟩
    | Except.error e => ⟨Outcome.nextError e, [Sql.selectEmergencyNearest lat lng type]⟩

/-! ## The process environment -/

/-- The variables of `process.env` that the server reads. -/
structure Env where
  NODE_ENV : Option String
  API_VERSION : Option String
  JWT_SECRET : Option String
  JWT_EXPIRES_IN : Option String
deriving DecidableEq, Repr

/-- The idiom `value || fallback` on a string that may be undefined: the
fallback replaces an undefined or empty string. -/
def orElse (v : Option String) (fallback : String) : String :=
  match v with
  | some s => if s = "" then fallback else s
  | none => fallback

/-! ## middleware/errorHandler.js -/

/-- An error object as the error handler reads it. A field that is missing on
the object is `none`. -/
structure JsError where
  name : Option String
  message : Option String
  statusCode : Option Nat
  stack : Option String
deriving DecidableEq, Repr

/-- The object passed to `res.json` by the error handler. `stack` is `none`
when the object has no such key, and `some err.stack` when the key was spread
into it. -/
structure ErrorBody where
  error : String
  stack : Option (Option String)
deriving DecidableEq, Repr

/-- The own keys of the object sent by the error handler. -/
def ErrorBody.keys (b : ErrorBody) : List String :=
  match b.stack with
  | some _ => ["error", "stack"]
  | none => ["error"]

/-- The response of the error handler: `res.status(statusCode).json(response)`. -/
structure ErrorResponse where
  status : Nat
  body : ErrorBody
deriving DecidableEq, Repr

/-- The defaults `err.statusCode || 500`: a missing status code, and the falsy
number 0, give 500. -/
def defaultStatus (err : JsError) : Nat :=
  match err.statusCode with
  | some n => if n = 0 then 500 else n
  | none => 500

/-- The status chosen by the error handler. -/
def errorStatus (err : JsError) : Nat :=
  if err.name = some "ValidationError" then 400
  else if err.name = some "UnauthorizedError" then 401
  else if err.name = some "JsonWebTokenError" then 401
  else defaultStatus err

/-- The message chosen by the error handler. -/
def errorMessage (err : JsError) : String :=
  if err.name = some "ValidationError" then "Validation Error"
  else if err.name = some "UnauthorizedError" then "Unauthorized"
  else if err.name = some "JsonWebTokenError" then "Invalid token"
  else orElse err.message "Internal Server Error"

/-- The function `errorHandler(err, req, res, next)`. -/
def errorHandler (env : Env) (err : JsError) : ErrorResponse :=
  let statusCode := errorStatus err
  let message := errorMessage err
  let response : ErrorBody :=
    if env.NODE_ENV = some "development" then ⟨message, some err.stack⟩
    else ⟨message, none⟩
  ⟨statusCode, response⟩

/-! ## routes/auth.js -/

/-- The claims put into a token. -/
structure TokenPayload where
  userId : String
  isAnonymous : Bool
deriving DecidableEq, Repr

/-- The package `jsonwebtoken`, taken as a parameter: `sign(payload, secret,
options)` yields a token or throws (an undefined secret, a malformed
`expiresIn`); `verify(token, secret)` yields the payload or throws. -/
structure Jwt where
  sign : TokenPayload → Option String → String → Except String String
  verify : String → Option String → Except String TokenPayload

/-- The function `generateToken(userId, isAnonymous)`. -/
def generateToken (jwt : Jwt) (env : Env) (userId : String) (isAnonymous : Bool) :
    Except String String :=
  jwt.sign ⟨userId, isAnonymous⟩ env.JWT_SECRET (orElse env.JWT_EXPIRES_IN "30d")

/-- The handler `POST /auth/anonymous`; `insertUser` is the result of
`INSERT INTO users (is_anonymous) VALUES (true) RETURNING id`, the ids of the
rows returned or the error thrown. -/
def authAnonymous (insertUser : Except String (List String)) (jwt : Jwt) (env : Env) :
    Outcome Body :=
  match insertUser with
  | Except.ok (userId :: _) =>
    match generateToken jwt env userId true with
    | Except.ok token => Outcome.json 201 (Body.anonymousCreated userId token 2592000)
    | Except.error e => Outcome.nextError e
  | Except.ok [] => Outcome.nextError "TypeError"
  | Except.error e => Outcome.nextError e

/-! ## The keys of the response objects -/

/-- The keys of the object a handler passes to `res.json`. A row is sent with
its columns as keys. -/
def Body.keys : Body → List String
  | Body.errors _ => ["errors"]
  | Body.zones _ _ => ["count", "zones"]
  | Body.noParkingInformation _ _ _ => ["is_legal", "status", "message"]
  | Body.legality _ _ _ _ _ _ =>
    ["is_legal", "status", "zone_type", "restrictions", "time_limit_minutes", "checked_at"]
  | Body.reportSubmitted _ _ _ => ["report_id", "message", "expires_at"]
  | Body.alerts _ _ => ["count", "alerts"]
  | Body.services _ _ => ["count", "services"]
  | Body.service row =>
    ["id", "name", "category", "latitude", "longitude"] ++ row.other.map Prod.fst
  | Body.error _ => ["error"]
  | Body.bundle _ _ _ _ _ => ["generated_at", "center", "radius_meters", "services", "version"]
  | Body.resources _ _ => ["location", "resources"]
  | Body.anonymousCreated _ _ _ => ["anonymous_id", "access_token", "expires_in"]
  | Body.verified _ _ => ["valid", "userId"]
  | Body.invalidToken _ _ => ["valid", "error"]

/-- The value of `checked_at` in a response object, when it has that key. -/
def Body.checkedAt : Body → Option Int
  | Body.legality _ _ _ _ _ checked_at => some checked_at
  | _ => none

/-! ## database/seed.js -/

/-- An entry of `sampleParkingZones`. An object that the seed passes through
`JSON.stringify` is kept as the list of its keys and values. -/
structure ParkingZoneSeed where
  zone_type : String
  geometry : String
  restrictions : List (String × String)
  time_limits : Option (List (String × String))
  street_cleaning : Option (List (String × String))
  notes : String
deriving DecidableEq, Repr

/-- The constant `sampleParkingZones`. -/
def sampleParkingZones : List ParkingZoneSeed :=
  [⟨"legal",
    "POLYGON((-122.3875 37.7280, -122.3850 37.7280, -122.3850 37.7300, -122.3875 37.7300, -122.3875 37.7280))",
    [("max_days", "3"), ("vehicle_type", "rv")], none, none, "Designated RV parking area"⟩,
   ⟨"time_limited",
    "POLYGON((-122.4200 37.7750, -122.4180 37.7750, -122.4180 37.7770, -122.4200 37.7770, -122.4200 37.7750))",
    [("prohibited_hours", "2:00-6:00")], some [("minutes", "120")],
    some [("day", "tuesday"), ("time", "8:00-10:00")], "2-hour parking limit during daytime"⟩]

/-! ## Reading the text values of the seed -/

/-- Split a text at every occurrence of a separator. -/
def splitAt (sep : Char) : List Char → List (List Char)
  | [] => [[]]
  | c :: cs =>
    if c = sep then [] :: splitAt sep cs
    else
      match splitAt sep cs with
      | [] => [[c]]
      | w :: ws => (c :: w) :: ws

/-- The number written by a non-empty run of decimal digits. -/
def digitsValue (cs : List Char) : Option Nat :=
  match cs with
  | [] => none
  | _ =>
    cs.foldl
      (fun acc c =>
        match acc with
        | some n => if c.isDigit then some (10 * n + (c.toNat - 48)) else none
        | none => none)
      (some 0)

/-- Drop the blanks in front of a text. -/
def dropBlanks : List Char → List Char
  | c :: cs => if c = Char.ofNat 32 then dropBlanks cs else c :: cs
  | [] => []

/-- Remove `lit` from the front of a text, if it is there. -/
def stripFront : List Char → List Char → Option (List Char)
  | [], cs => some cs
  | _ :: _, [] => none
  | l :: ls, c :: cs => if l = c then stripFront ls cs else none

/-- Remove `lit` from the end of a text, if it is there. -/
def stripBack (lit cs : List Char) : Option (List Char) :=
  (stripFront lit.reverse cs.reverse).map List.reverse

/-- All the values of a list of optional values, if none is missing. -/
def allSome {α : Type} : List (Option α) → Option (List α)
  | [] => some []
  | none :: _ => none
  | some a :: rest => (allSome rest).map (fun l => a :: l)

/-- A decimal numeral as written: the value is `mantissa / 10 ^ scale`. -/
structure Decimal where
  mantissa : Int
  scale : Nat
deriving DecidableEq, Repr

/-- The rational number a decimal numeral stands for. -/
def Decimal.toRat (d : Decimal) : Rat := (d.mantissa : Rat) / ((10 : Rat) ^ d.scale)

/-- Read a decimal numeral: an optional minus sign, digits, and optionally a
point and more digits. -/
def parseDecimal (cs : List Char) : Option Decimal :=
  let negative := decide (cs.head? = some (Char.ofNat 45))
  let body := if negative then cs.tail else cs
  match splitAt (Char.ofNat 46) body with
  | [whole] =>
    (digitsValue whole).map (fun n => ⟨if negative then -(n : Int) else (n : Int), 0⟩)
  | [whole, frac] =>
    match digitsValue whole, digitsValue frac with
    | some w, some f =>
      some ⟨if negative then -((w * 10 ^ frac.length + f : Nat) : Int)
        else ((w * 10 ^ frac.length + f : Nat) : Int), frac.length⟩
    | _, _ => none
  | _ => none

/-- Read `x y`, the longitude and the latitude of a vertex in WKT. -/
def parseVertex (cs : List Char) : Option (Decimal × Decimal) :=
  match splitAt (Char.ofNat 32) (dropBlanks cs) with
  | [x, y] =>
    match parseDecimal x, parseDecimal y with
    | some lng, some lat => some (lng, lat)
    | _, _ => none
  | _ => none

/-- The PostGIS function `ST_GeomFromText` on the text of a polygon with one
ring: the vertices of the ring, each as (longitude, latitude). -/
def ST_GeomFromText (wkt : String) : Option (List (Decimal × Decimal)) :=
  match stripFront "POLYGON((".toList wkt.toList with
  | none => none
  | some rest =>
    match stripBack "))".toList rest with
    | none => none
    | some body => allSome ((splitAt (Char.ofNat 44) body).map parseVertex)

/-- The point of a vertex read from WKT. -/
def vertexPoint (v : Decimal × Decimal) : Point := ⟨v.2.toRat, v.1.toRat⟩

/-! ## server.js -/

/-- The routes of `routes/auth.js`. -/
inductive AuthRoute
  | anonymous
  | register
  | login
  | verify
deriving DecidableEq, Repr

def authRouter : List (Route AuthRoute) :=
  [⟨Method.POST, [PathSeg.lit "anonymous"], AuthRoute.anonymous⟩,
   ⟨Method.POST, [PathSeg.lit "register"], AuthRoute.register⟩,
   ⟨Method.POST, [PathSeg.lit "login"], AuthRoute.login⟩,
   ⟨Method.POST, [PathSeg.lit "verify"], AuthRoute.verify⟩]

/-- The routes of `routes/parking.js`. -/
inductive ParkingRoute
  | zones
  | check
  | report
  | alerts
deriving DecidableEq, Repr

def parkingRouter : List (Route ParkingRoute) :=
  [⟨Method.GET, [PathSeg.lit "zones"], ParkingRoute.zones⟩,
   ⟨Method.GET, [PathSeg.lit "check"], ParkingRoute.check⟩,
   ⟨Method.POST, [PathSeg.lit "report"], ParkingRoute.report⟩,
   ⟨Method.GET, [PathSeg.lit "alerts"], ParkingRoute.alerts⟩]

/-- The routes of `routes/emergency.js`. -/
inductive EmergencyRoute
  | nearest
  | hotlines
deriving DecidableEq, Repr

def emergencyRouter : List (Route EmergencyRoute) :=
  [⟨Method.GET, [PathSeg.lit "nearest"], EmergencyRoute.nearest⟩,
   ⟨Method.GET, [PathSeg.lit "hotlines"], EmergencyRoute.hotlines⟩]

/-- The routes of `routes/housing.js`. -/
inductive HousingRoute
  | listApplications
  | submitApplication
  | resources
deriving DecidableEq, Repr

def housingRouter : List (Route HousingRoute) :=
  [⟨Method.GET, [PathSeg.lit "applications"], HousingRoute.listApplications⟩,
   ⟨Method.POST, [PathSeg.lit "applications"], HousingRoute.submitApplication⟩,
   ⟨Method.GET, [PathSeg.lit "resources"], HousingRoute.resources⟩]

/-- The routes of the application: the health check and the routes of the five
mounted routers. -/
inductive AppRoute
  | health
  | auth (r : AuthRoute)
  | services (r : ServicesRoute)
  | parking (r : ParkingRoute)
  | emergency (r : EmergencyRoute)
  | housing (r : HousingRoute)
deriving DecidableEq, Repr

/-- The call `app.use(path, router)`: the routes of the router behind the
segments of the mount path. -/
def mount {H : Type} (path : List String) (wrap : H → AppRoute) (router : List (Route H)) :
    List (Route AppRoute) :=
  router.map
    (fun r => ⟨r.method, path.map PathSeg.lit ++ PathSeg.mountEnd :: r.path, wrap r.handler⟩)

/-- The mount path of a router, `/api/${process.env.API_VERSION || 'v1'}/name`,
by its segments, for a version that is one plain segment as the default `v1`
is. -/
def apiPath (env : Env) (name : String) : List String :=
  ["api", orElse env.API_VERSION "v1", name]

/-- Whether a text is a plain path segment: ASCII letters, digits, `-`, `_`
and `.` only, none of which a route pattern reads specially. -/
def plainSegment (s : String) : Bool :=
  s.toList.all
    (fun c => c.isAlphanum || c = Char.ofNat 45 || c = Char.ofNat 95 || c = Char.ofNat 46)

/-- The API version in force is a plain path segment, so that `apiPath` gives
the mount paths of the routers. -/
def PlainVersion (env : Env) : Prop :=
  plainSegment (orElse env.API_VERSION "v1") = true

/-- The routes of the application in the order `server.js` registers them. -/
def appRoutes (env : Env) : List (Route AppRoute) :=
  [⟨Method.GET, [PathSeg.lit "health"], AppRoute.health⟩] ++
  mount (apiPath env "auth") AppRoute.auth authRouter ++
  mount (apiPath env "services") AppRoute.services servicesRouter ++
  mount (apiPath env "parking") AppRoute.parking parkingRouter ++
  mount (apiPath env "emergency") AppRoute.emergency emergencyRouter ++
  mount (apiPath env "housing") AppRoute.housing housingRouter

/-- The method and the path of a request as the application sees them; the
path is given by its segments, the parts of the URL path between the slashes
after the leading one, as sent (`/health/` is `["health", ""]`). -/
structure AppRequest where
  method : Method
  path : List String
deriving DecidableEq, Repr

/-- What the middleware between `cors()` and the routes does with a request
(compression, the body parsers, the logger and the rate limiter, the last of
which is not among the sources): it hands the request on, ends the response
itself with a status, or hands an error to the error handler. -/
inductive MiddlewareVerdict
  | pass
  | respond (status : Nat)
  | fail (err : JsError)
deriving DecidableEq, Repr

/-- The answer of the application. -/
inductive AppAnswer
  | ended (status : Nat)
  | failed (response : ErrorResponse)
  | routed (route : AppRoute) (result : Result)
  | json (status : Nat) (error : String) (message : String)
deriving DecidableEq, Repr

/-- The application of `server.js`. `helmet()` only sets headers; `cors()`,
with its default options, ends every OPTIONS request with status 204 and hands
every other request on; then come the remaining middleware, the routes, and
last the 404 handler. `run` gives the behaviour of the handler stack of each
route. -/
def app (env : Env) (middleware : AppRequest → MiddlewareVerdict)
    (run : AppRequest → AppRoute → List (String × String) → Result) (r : AppRequest) :
    AppAnswer :=
  if r.method = Method.OPTIONS then AppAnswer.ended 204
  else
    match middleware r with
    | MiddlewareVerdict.respond status => AppAnswer.ended status
    | MiddlewareVerdict.fail err => AppAnswer.failed (errorHandler env err)
    | MiddlewareVerdict.pass =>
      match dispatch (run r) (appRoutes env) r.method r.path with
      | some (route, result) => AppAnswer.routed route result
      | none => AppAnswer.json 404 "Not Found" "The requested resource does not exist"

/-- The method and path of a request match no route of the application. -/
def NoRouteMatches (env : Env) (r : AppRequest) : Prop :=
  ∀ route ∈ appRoutes env,
    handlesMethod route.method r.method = false ∨ matchPath route.path r.path = none

/-! ## routes/auth.js: token lifetime and verification -/

/-- The leading decimal digits of a text and what follows them. -/
def takeDigits : List Char → List Char × List Char
  | [] => ([], [])
  | c :: cs =>
    if c.isDigit then ((takeDigits cs).1.cons c, (takeDigits cs).2)
    else ([], c :: cs)

/-- The package `ms`, which `jsonwebtoken` uses to read a string `expiresIn`:
the number of milliseconds written as digits followed by one of the short unit
names (none or `ms`, `s`, `m`, `h`, `d`, `w`, `y`); `none` for any other text. -/
def msValue (text : String) : Option Nat :=
  match digitsValue (takeDigits text.toList).1 with
  | none => none
  | some n =>
    let unit := String.mk (takeDigits text.toList).2
    if unit = "" ∨ unit = "ms" then some n
    else if unit = "s" then some (n * 1000)
    else if unit = "m" then some (n * 60000)
    else if unit = "h" then some (n * 3600000)
    else if unit = "d" then some (n * 86400000)
    else if unit = "w" then some (n * 604800000)
    else if unit = "y" then some (n * 31557600000)
    else none

/-- The lifetime in seconds that `jsonwebtoken` gives a token signed with the
string option `expiresIn`: `exp - iat = Math.floor(ms(expiresIn) / 1000)`. -/
def tokenLifetimeSeconds (expiresIn : String) : Option Nat :=
  (msValue expiresIn).map (fun milliseconds => milliseconds / 1000)

/-- The lifetime of the tokens that `generateToken` issues in an environment. -/
def issuedTokenLifetime (env : Env) : Option Nat :=
  tokenLifetimeSeconds (orElse env.JWT_EXPIRES_IN "30d")

/-- The value `authHeader.split(' ')[1]`: the second of the parts between
blanks, `none` when there is no blank. -/
def secondPart (authHeader : String) : Option String :=
  ((splitAt (Char.ofNat 32) authHeader.toList).get? 1).map String.mk

/-- The value `authHeader && authHeader.split(' ')[1]`: undefined (`none`),
the empty string, or a token. -/
def bearerToken (authHeader : Option String) : Option String :=
  match authHeader with
  | none => none
  | some h => if h = "" then some "" else secondPart h

/-- The handler `POST /auth/verify`. -/
def authVerify (jwt : Jwt) (env : Env) (authHeader : Option String) : Outcome Body :=
  match bearerToken authHeader with
  | none => Outcome.json 401 (Body.error "Token required")
  | some token =>
    if token = "" then Outcome.json 401 (Body.error "Token required")
    else
      match jwt.verify token env.JWT_SECRET with
      | Except.ok decoded => Outcome.json 200 (Body.verified true decoded.userId)
      | Except.error _ => Outcome.json 403 (Body.invalidToken false "Invalid token")

/-! ## server.js: graceful shutdown -/

/-- The names bound at the top level of `server.js`, in the order of their
declarations: every `const` of the module, none of them named `server` (the
value of `app.listen(...)` is not kept). -/
def serverModuleBindings : List String :=
  ["express", "helmet", "cors", "compression", "morgan", "logger", "errorHandler",
   "rateLimiter", "servicesRoutes", "parkingRoutes", "emergencyRoutes", "authRoutes",
   "housingRoutes", "app", "PORT", "API_PREFIX"]

/-- The names that Node binds for every module. -/
def nodeGlobals : List String :=
  ["process", "require", "module", "exports", "console", "__dirname", "__filename"]

/-- What running the SIGTERM handler does. -/
inductive ShutdownOutcome
  | closedAndExited (code : Nat)
  | threw (error : String)
deriving DecidableEq, Repr

/-- The names the SIGTERM handler refers to, in the order it evaluates them:
`logger.info(...)`, then `server.close(...)`, whose callback uses `logger` and
`process`. -/
def sigtermHandlerNames : List String := ["logger", "server", "logger", "process"]

/-- Evaluate the references of a handler body in order within a scope: the
first name that is not bound throws a ReferenceError. -/
def resolveNames (scope : List String) : List String → Option String
  | [] => none
  | name :: rest => if scope.contains name then resolveNames scope rest else some name

/-- The handler registered with `process.on('SIGTERM', ...)`, run in a scope:
it logs, closes the server and, from the callback of `close`, logs and exits
with code 0. -/
def sigtermHandler (scope : List String) : ShutdownOutcome :=
  match resolveNames scope sigtermHandlerNames with
  | some name => ShutdownOutcome.threw ("ReferenceError: " ++ name ++ " is not defined")
  | none => ShutdownOutcome.closedAndExited 0

/-! ## mobile/src/stores/servicesStore.js -/

/-- A service as the mobile store holds it. -/
structure StoreService where
  id : String
  name : String
deriving DecidableEq, Repr

/-- The offline bundle as parsed from the cache; `services` is `none` when
the parsed object has no such key. -/
structure OfflineBundle where
  generated_at : String
  version : String
  services : Option (List StoreService)
deriving DecidableEq, Repr

/-- The state of the store; `services` is `none` when it was set to
undefined. -/
structure StoreState where
  services : Option (List StoreService)
  savedServices : List String
  loading : Bool
  error : Option String
  offlineData : Option OfflineBundle
deriving DecidableEq, Repr

/-- The initial state of the store. -/
def initialStore : StoreState := ⟨some [], [], false, none, none⟩

/-- The device as the store uses it: `AsyncStorage.getItem` (a stored text, no
entry, or a rejection), `JSON.parse` on the text of a bundle (it may throw),
and `JSON.stringify` on a list of ids. -/
structure Device where
  getItem : String → Except String (Option String)
  parseBundle : String → Except String OfflineBundle
  stringifyIds : List String → String

/-- The object that `fetchServices` returns; a key that the object lacks is
`none`. -/
structure FetchResult where
  success : Bool
  data : Option (List StoreService)
  offline : Option Bool
  error : Option String
deriving DecidableEq, Repr

/-- The action `loadOfflineData`. -/
def loadOfflineData (dev : Device) (s : StoreState) :
    StoreState × Option (List StoreService) :=
  match dev.getItem "offline_services" with
  | Except.error _ => (s, none)
  | Except.ok none => (s, none)
  | Except.ok (some data) =>
    if data = "" then (s, none)
    else
      match dev.parseBundle data with
      | Except.error _ => (s, none)
      | Except.ok parsed =>
        ({ s with offlineData := some parsed, services := parsed.services }, parsed.services)

/-- The action `fetchServices`; `request` is the outcome of `api.get`: the
`services` of the response data, or the message of the error thrown. -/
def fetchServices (dev : Device) (request : Except String (Option (List StoreService)))
    (s : StoreState) : StoreState × FetchResult :=
  let started := { s with loading := true, error := none }
  match request with
  | Except.ok services =>
    ({ started with services := services, loading := false }, ⟨true, services, none, none⟩)
  | Except.error message =>
    match loadOfflineData dev started with
    | (loaded, some offline) => (loaded, ⟨true, some offline, some true, none⟩)
    | (loaded, none) =>
      ({ loaded with error := some message, loading := false, services := some [] },
        ⟨false, none, none, some message⟩)

/-- The action `saveService`: the new state and what it writes to
`AsyncStorage`, as key and text. -/
def saveService (dev : Device) (s : StoreState) (serviceId : String) :
    StoreState × List (String × String) :=
  if !s.savedServices.contains serviceId then
    ({ s with savedServices := s.savedServices ++ [serviceId] },
      [("saved_services", dev.stringifyIds (s.savedServices ++ [serviceId]))])
  else (s, [])

/-- The action `unsaveService`. -/
def unsaveService (dev : Device) (s : StoreState) (serviceId : String) :
    StoreState × List (String × String) :=
  ({ s with savedServices := s.savedServices.filter (fun id => id != serviceId) },
    [("saved_services",
      dev.stringifyIds (s.savedServices.filter (fun id => id != serviceId)))])

/-- A call of `saveService` or of `unsaveService`. -/
inductive SavedCall
  | save (serviceId : String)
  | unsave (serviceId : String)
deriving DecidableEq, Repr

/-- Run a sequence of calls, one after the other. -/
def runSavedCalls (dev : Device) : StoreState → List SavedCall → StoreState
  | s, [] => s
  | s, SavedCall.save id :: rest => runSavedCalls dev (saveService dev s id).1 rest
  | s, SavedCall.unsave id :: rest => runSavedCalls dev (unsaveService dev s id).1 rest

/-! ## Two ways a database may order rows with equal keys -/

/-- Insert a row into an ordered list in front of the first row that is not
smaller. -/
def insertBefore {α : Type} (le : α → α → Bool) (a : α) : List α → List α
  | [] => [a]
  | b :: l => if le a b then a :: b :: l else b :: insertBefore le a l

/-- Insertion sort; rows with equal keys keep their order. -/
def insertionSort {α : Type} (le : α → α → Bool) : List α → List α
  | [] => []
  | a :: l => insertBefore le a (insertionSort le l)

theorem insertBefore_perm {α : Type} (le : α → α → Bool) (a : α) (l : List α) :
    (insertBefore le a l).Perm (a :: l) := by
  induction l with
  | nil => exact List.Perm.refl _
  | cons b l ih =>
    unfold insertBefore
    split
    · exact List.Perm.refl _
    · exact (List.Perm.cons b ih).trans (List.Perm.swap a b l)

theorem insertionSort_perm {α : Type} (le : α → α → Bool) (l : List α) :
    (insertionSort le l).Perm l := by
  induction l with
  | nil => exact List.Perm.refl _
  | cons a l ih =>
    exact (insertBefore_perm le a (insertionSort le l)).trans (List.Perm.cons a ih)

theorem insertBefore_pairwise {α : Type} (le : α → α → Bool)
    (total : ∀ a b, le a b = true ∨ le b a = true)
    (trans : ∀ a b c, le a b = true → le b c = true → le a c = true)
    (a : α) (l : List α) (hl : l.Pairwise (fun x y => le x y = true)) :
    (insertBefore le a l).Pairwise (fun x y => le x y = true) := by
  induction l with
  | nil => simp [insertBefore]
  | cons b l ih =>
    rw [List.pairwise_cons] at hl
    unfold insertBefore
    split
    · rename_i hab
      refine List.pairwise_cons.mpr ⟨?_, List.pairwise_cons.mpr hl⟩
      intro c hc
      rcases List.mem_cons.mp hc with rfl | hc
      · exact hab
      · exact trans a b c hab (hl.1 c hc)
    · rename_i hab
      have hba : le b a = true := by
        rcases total a b with h | h
        · exact absurd h hab
        · exact h
      refine List.pairwise_cons.mpr ⟨?_, ih hl.2⟩
      intro c hc
      rcases List.mem_cons.mp ((insertBefore_perm le a l).subset hc) with rfl | hc
      · exact hba
      · exact hl.1 c hc

theorem insertionSort_pairwise {α : Type} (le : α → α → Bool)
    (total : ∀ a b, le a b = true ∨ le b a = true)
    (trans : ∀ a b c, le a b = true → le b c = true → le a c = true) (l : List α) :
    (insertionSort le l).Pairwise (fun x y => le x y = true) := by
  induction l with
  | nil => exact List.Pairwise.nil
  | cons a l ih => exact insertBefore_pairwise le total trans a _ ih

/-- A database whose sort keeps rows with equal keys in the order it read them. -/
def stableEngine : SortEngine where
  sort le l := insertionSort le l
  perm le l := insertionSort_perm le l
  sorted le l total trans := insertionSort_pairwise le total trans l

/-- A database whose sort returns rows with equal keys in the opposite order:
it sorts the rows read back to front. -/
def reversingEngine : SortEngine where
  sort le l := insertionSort le l.reverse
  perm le l := (insertionSort_perm le l.reverse).trans (List.reverse_perm l)
  sorted le l total trans := insertionSort_pairwise le total trans l.reverse

/-- A request whose `lat` is a number outside [-90, 90] or whose `lng` is a
number outside [-180, 180]. -/
def LatLngOutOfRange (q : Query) : Prop :=
  (∃ p x, q.lat = some p ∧ p.asFloat = some x ∧ (x < -90 ∨ 90 < x)) ∨
  (∃ p x, q.lng = some p ∧ p.asFloat = some x ∧ (x < -180 ∨ 180 < x))

/-! ## Sample requests -/

/-- The query value `s` read as the number `q`. -/
def numParam (s : String) (q : Rat) : Param := ⟨s, some q, none⟩

/-- The query value `s` read as the integer `i`. -/
def intParam (s : String) (i : Int) : Param := ⟨s, some (i : Rat), some i⟩

/-- A value that is no number. -/
def textParam (s : String) : Param := ⟨s, none, none⟩

def emptyQuery : Query := ⟨none, none, none, none, none, none⟩
def emptyBody : ReportBody := ⟨none, none, none, none⟩

/-- A query string with `lat` and `lng` only. -/
def latLngQuery (lat lng : Param) : Query := ⟨some lat, some lng, none, none, none, none⟩

/-- An anonymous request with `lat` and `lng` only. -/
def latLngRequest (lat lng : Param) : Request := ⟨none, latLngQuery lat lng, emptyBody⟩

/-- A point in San Francisco. -/
def sfLat : Param := numParam "37" 37
def sfLng : Param := numParam "-122" (-122)

/-- An anonymous report of parking enforcement in San Francisco. -/
def enforcementReport : Request :=
  ⟨none, emptyQuery, ⟨some sfLat, some sfLng, some (textParam "enforcement"), none⟩⟩

/-- Sample locations in San Francisco: 37.75 N 122.40 W, and the points 0.01
degrees north, south and west of it. -/
def sfPoint : Point := ⟨⟨151, 4, by decide, by decide⟩, ⟨-612, 5, by decide, by decide⟩⟩
def northPoint : Point := ⟨⟨944, 25, by decide, by decide⟩, ⟨-612, 5, by decide, by decide⟩⟩
def southPoint : Point := ⟨⟨1887, 50, by decide, by decide⟩, ⟨-612, 5, by decide, by decide⟩⟩
def westPoint : Point := ⟨⟨151, 4, by decide, by decide⟩, ⟨-12241, 100, by decide, by decide⟩⟩

/-- The distances in metres between the sample locations and `sfPoint`, as a
table: 1112 m for 0.01 degrees of latitude, 879 m for 0.01 degrees of
longitude there. Locations off the table count as far away. -/
def sampleDistance (a b : Point) : Rat :=
  if a = b then 0
  else if b = sfPoint ∧ (a = northPoint ∨ a = southPoint) then 1112
  else if b = sfPoint ∧ a = westPoint then 879
  else 100000

/-- A database with empty tables, on 2024-03-10 at 09:30:00Z. -/
def emptyPg : Postgres where
  services := []
  parking_zones := []
  parking_alerts := []
  emergency_resources := []
  CURRENT_TIMESTAMP := 1710063000000
  CURRENT_DATE := 19792
  ST_Distance := sampleDistance
  zoneDistance g p := (g.map (fun v => sampleDistance v p)).foldr min 100000
  textLe a b := decide (a.toList ≤ b.toList)
  check_parking_legality _ _ _ := []
  newId := "1"
  engine := stableEngine

/-- The sample location as query values. -/
def sfLatParam : Param := numParam "37.75" sfPoint.lat
def sfLngParam : Param := numParam "-122.4" sfPoint.lng

/-- A latitude beyond the pole. -/
def badLatParam : Param := numParam "91" 91

/-- The point a location query asks about, `ST_MakePoint($2, $1)`. -/
def queryPoint (q : Query) : Point := ST_MakePoint (parseFloat q.lng) (parseFloat q.lat)

/-- The radius of an alerts listing request, 2000 m when none is given. -/
def alertsRadius (q : Query) : Int := parseInt 2000 q.radius

/-- The radius of a zones listing request, 1000 m when none is given. -/
def zonesRadius (q : Query) : Int := parseInt 1000 q.radius

/-- The radius of a services search request, 5000 m when none is given. -/
def searchRadius (q : Query) : Int := parseInt 5000 q.radius

/-- An alert without description, severity or reporter. -/
def alertAt (id : String) (loc : Point) (type : String) (created expires : Int) :
    ParkingAlert :=
  ⟨id, loc, type, none, none, none, created, expires⟩

/-- A database at 2024-03-10T09:30:00Z with three alerts: one 879 m away that
expires in an hour, one 1112 m away that expires at this very instant, and one
far away that expires in an hour. -/
def alertsPg : Postgres :=
  { emptyPg with
    parking_alerts :=
      [alertAt "a1" northPoint "hazard" 1709976600000 1710063000000,
       alertAt "a2" westPoint "enforcement" 1710059400000 1710066600000,
       alertAt "a3" ⟨40, -120⟩ "safe" 1709980200000 1710066600000] }

/-- The alert of `alertsPg` that expires at the instant of the query. -/
def expiringAlert : ParkingAlert :=
  alertAt "a1" northPoint "hazard" 1709976600000 1710063000000

/-- In force on the date `today`, in the words of the data model: the effective
date is unset or on or before the date, and the expiry date is unset or on or
after it. -/
def InForce (today : Int) (z : ParkingZone) : Prop :=
  (z.effective_date = none ∨ ∃ d, z.effective_date = some d ∧ d ≤ today) ∧
  (z.expiry_date = none ∨ ∃ d, z.expiry_date = some d ∧ today ≤ d)

/-- A square zone around `sfPoint` through the three neighbouring sample
points, with the given type and date bounds. -/
def zoneAround (id type : String) (effective expiry : Option Int) : ParkingZone :=
  ⟨id, type, [northPoint, westPoint, southPoint, sfPoint, northPoint], "", none, none, "",
    effective, expiry⟩

/-- A database on day 19792 (2024-03-10) with five zones around the sample
point: one without dates, one that starts today, one that ends today, one that
ended yesterday and one that starts tomorrow. -/
def zonesPg : Postgres :=
  { emptyPg with
    parking_zones :=
      [zoneAround "z1" "legal" none none,
       zoneAround "z2" "time_limited" (some 19792) none,
       zoneAround "z3" "street_cleaning" (some 19000) (some 19792),
       zoneAround "z4" "prohibited" none (some 19791),
       zoneAround "z5" "permit_only" (some 19793) none] }

/-- An active service without descriptive columns. -/
def serviceAt (id name category : String) (loc : Point) : Service :=
  ⟨id, name, category, loc, true, []⟩

def northShelter : Service := serviceAt "s1" "North Shelter" "shelter" northPoint
def southShelter : Service := serviceAt "s2" "South Shelter" "shelter" southPoint
def westKitchen : Service := serviceAt "s3" "West Kitchen" "food" westPoint

/-- A database with three services around the sample point, two of them at the
same distance (1112 m), read in the order north, south, west, whose sort keeps
rows with equal keys in that order. -/
def servicesPg : Postgres :=
  { emptyPg with services := [northShelter, southShelter, westKitchen] }

/-- The same database with a sort that returns rows with equal keys in the
opposite order. -/
def tiesPg : Postgres :=
  { servicesPg with engine := reversingEngine }

/-- A stand-in for `jsonwebtoken` in the examples: the token spells out the
payload, the secret and the lifetime; signing without a secret throws. -/
def sampleJwt : Jwt where
  sign payload secret expiresIn :=
    match secret with
    | some s =>
      Except.ok (String.intercalate "."
        [payload.userId, if payload.isAnonymous then "anonymous" else "registered", s, expiresIn])
    | none => Except.error "secretOrPrivateKey must have a value"
  verify _ _ := Except.error "invalid token"

/-- A production environment with a signing secret. -/
def productionEnv : Env := ⟨some "production", none, some "s3cret", none⟩

/-- A development environment with a signing secret. -/
def developmentEnv : Env := ⟨some "development", none, some "s3cret", none⟩

/-- A database error as the handlers pass it on: no status code, a stack. -/
def connectionError : JsError :=
  ⟨some "Error", some "connect ECONNREFUSED 127.0.0.1:5432", none,
    some "Error: connect ECONNREFUSED 127.0.0.1:5432 at TCPConnectWrap.afterConnect"⟩

/-- An error carrying its own status code. -/
def payloadTooLarge : JsError :=
  ⟨some "PayloadTooLargeError", some "request entity too large", some 413, some "stack"⟩

/-- An enforcement sighting at the sample point itself, reported ten minutes
before 09:30:00Z and expiring two hours after the report. -/
def enforcementSighting : ParkingAlert :=
  alertAt "e1" sfPoint "enforcement" 1710062400000 1710069600000

/-- A database at 09:30:00Z holding the enforcement sighting, where the
legality lookup finds no zone at the sample point. -/
def enforcementPg : Postgres :=
  { emptyPg with parking_alerts := [enforcementSighting] }

/-- The same database where the legality lookup finds a legal zone. -/
def enforcementLegalPg : Postgres :=
  { enforcementPg with
    check_parking_legality := fun _ _ _ => [⟨some true, "legal", "max_days 3", none⟩] }

/-! ## The core of the specification that the repository leaves to the database

The handlers compute no distance, containment or temporal rule themselves:
`ST_Distance`, `ST_DWithin` and the SQL function `check_parking_legality` do it
inside the database, and their definitions are not among the sources. The
definitions of this section follow the words of the specification instead. -/

namespace Core

/-- Modelled from the spec: the floating-point library that the geo primitives
call, which is no part of the repository: sine, cosine, arcsine, square root
and the constant pi. -/
structure FloatMath where
  sin : Rat → Rat
  cos : Rat → Rat
  asin : Rat → Rat
  sqrt : Rat → Rat
  pi : Rat

/-- Modelled from the spec: degrees to radians, for the haversine formula. -/
def toRadians (m : FloatMath) (degrees : Rat) : Rat := degrees * m.pi / 180

/-- Modelled from the spec: `haversineDistanceMeters(a, b)`, the great-circle
distance by the haversine formula with Earth radius 6,371,000 m; the
repository itself has no such function, `ST_Distance` takes its place. -/
def haversineDistanceMeters (m : FloatMath) (a b : Point) : Rat :=
  let dLat := toRadians m (b.lat - a.lat)
  let dLng := toRadians m (b.lng - a.lng)
  let h := m.sin (dLat / 2) ^ 2 +
    m.cos (toRadians m a.lat) * m.cos (toRadians m b.lat) * m.sin (dLng / 2) ^ 2
  2 * 6371000 * m.asin (m.sqrt h)

/-- Modelled from the spec: `withinRadius(center, point, radiusMeters)`. -/
def withinRadius (m : FloatMath) (center point : Point) (radiusMeters : Rat) : Bool :=
  decide (haversineDistanceMeters m center point ≤ radiusMeters)

/-- Modelled from the spec: the error kinds of the core. -/
inductive CoreError
  | InvalidCoordinate
  | InvalidGeometry
deriving DecidableEq, Repr

/-- Modelled from the spec: a coordinate has its latitude in [-90, 90] and its
longitude in [-180, 180]. -/
def validCoordinate (p : Point) : Bool :=
  decide (-90 ≤ p.lat) && decide (p.lat ≤ 90) && decide (-180 ≤ p.lng) && decide (p.lng ≤ 180)

/-- Modelled from the spec: a polygon is a closed sequence of at least 4
coordinates, the first equal to the last. -/
def wellFormedRing (poly : List Point) : Bool :=
  decide (4 ≤ poly.length) && decide (poly.head? = poly.getLast?)

/-- Modelled from the spec: whether the ray from `p` towards greater
longitudes crosses the edge from `a` to `b`, on (lng, lat) as planar (x, y).
An edge counts when exactly one of its ends lies strictly north of `p`, which
fixes the policy for points on an edge. -/
def edgeCrosses (p a b : Point) : Bool :=
  (decide (p.lat < a.lat) != decide (p.lat < b.lat)) &&
  decide (p.lng < a.lng + (p.lat - a.lat) * (b.lng - a.lng) / (b.lat - a.lat))

/-- Modelled from the spec: the number of edges of the ring that the ray
crosses. -/
def crossings (p : Point) : List Point → Nat
  | a :: b :: rest => (if edgeCrosses p a b then 1 else 0) + crossings p (b :: rest)
  | _ => 0

/-- Modelled from the spec: `pointInPolygon(p, poly)` by the even-odd rule; a
malformed polygon fails with `InvalidGeometry`. -/
def pointInPolygon (p : Point) (poly : List Point) : Except CoreError Bool :=
  if wellFormedRing poly then Except.ok (decide (crossings p poly % 2 = 1))
  else Except.error CoreError.InvalidGeometry

/-- Modelled from the spec: the days of the week of a day-scoped window. -/
inductive DayOfWeek
  | sunday
  | monday
  | tuesday
  | wednesday
  | thursday
  | friday
  | saturday
deriving DecidableEq, Repr

/-- Modelled from the spec: an instant in the local civil time of the city:
its date (a day number), its day of the week and its time of day in
milliseconds since local midnight, next to the timestamp it came from. -/
structure Instant where
  timestamp : Int
  date : Int
  dayOfWeek : DayOfWeek
  timeOfDay : Int
deriving DecidableEq, Repr

/-- Modelled from the spec: the day of the week of a day number; day 0,
1 January 1970, was a Thursday. -/
def dayOfWeekOf (date : Int) : DayOfWeek :=
  match ((date + 4) % 7).toNat with
  | 0 => DayOfWeek.sunday
  | 1 => DayOfWeek.monday
  | 2 => DayOfWeek.tuesday
  | 3 => DayOfWeek.wednesday
  | 4 => DayOfWeek.thursday
  | 5 => DayOfWeek.friday
  | _ => DayOfWeek.saturday

/-- Modelled from the spec: a timestamp read in the local civil time of the
zone `tz`. -/
def instantAt (tz : TimeZone) (timestamp : Int) : Instant :=
  ⟨timestamp, Day (LocalTime tz timestamp), dayOfWeekOf (Day (LocalTime tz timestamp)),
    LocalTime tz timestamp % msPerDay⟩

/-- Modelled from the spec: the rule specifications of the temporal rule
evaluator; times of day are in milliseconds since midnight. -/
inductive TemporalRule
  | prohibitedHours (startTime endTime : Int)
  | streetCleaning (day : DayOfWeek) (startTime endTime : Int)
  | always
  | never
deriving DecidableEq, Repr

/-- Modelled from the spec: a fixed window `[start, end)`; when it crosses
midnight (the start is later than the end) it is active iff the time of day is
at or after the start or before the end. -/
def windowActive (startTime endTime timeOfDay : Int) : Bool :=
  if startTime ≤ endTime then decide (startTime ≤ timeOfDay) && decide (timeOfDay < endTime)
  else decide (timeOfDay ≥ startTime) || decide (timeOfDay < endTime)

/-- Modelled from the spec: the temporal rule evaluator. A street-cleaning
window is active iff the day of the week is the rule's day and the time of
day is in `[start, end)`; without a temporal rule the restriction is always
active. -/
def ruleActive (rule : Option TemporalRule) (t : Instant) : Bool :=
  match rule with
  | none => true
  | some (TemporalRule.prohibitedHours startTime endTime) =>
    windowActive startTime endTime t.timeOfDay
  | some (TemporalRule.streetCleaning day startTime endTime) =>
    decide (t.dayOfWeek = day) && decide (startTime ≤ t.timeOfDay) &&
      decide (t.timeOfDay < endTime)
  | some TemporalRule.always => true
  | some TemporalRule.never => false

/-- Modelled from the spec: the zone types of the data model. -/
inductive ZoneType
  | legal
  | time_limited
  | street_cleaning
  | prohibited
  | permit_only
deriving DecidableEq, Repr

/-- Modelled from the spec: the name of a zone type as the column `zone_type`
holds it. -/
def ZoneType.name : ZoneType → String
  | ZoneType.legal => "legal"
  | ZoneType.time_limited => "time_limited"
  | ZoneType.street_cleaning => "street_cleaning"
  | ZoneType.prohibited => "prohibited"
  | ZoneType.permit_only => "permit_only"

/-- Modelled from the spec: the severity order
`prohibited > street_cleaning > time_limited > permit_only > legal`. -/
def severity : ZoneType → Nat
  | ZoneType.prohibited => 4
  | ZoneType.street_cleaning => 3
  | ZoneType.time_limited => 2
  | ZoneType.permit_only => 1
  | ZoneType.legal => 0

/-- Modelled from the spec: the `ParkingZone` of the data model. The temporal
rule of the zone is given as such; the spec does not say how a zone with
several windows is reduced to one rule. -/
structure ParkingZone where
  id : String
  zoneType : ZoneType
  geometry : List Point
  restrictions : String
  timeLimitMinutes : Option Nat
  rule : Option TemporalRule
  effectiveDate : Option Int
  expiryDate : Option Int
deriving DecidableEq, Repr

/-- Modelled from the spec: the `LegalityVerdict` of the data model; `isLegal`
is `none` for unknown. -/
structure LegalityVerdict where
  isLegal : Option Bool
  zoneType : Option ZoneType
  restrictions : Option String
  timeLimitMinutes : Option Nat
  activeAlerts : List ParkingAlert
  evaluatedAt : Int
deriving DecidableEq, Repr

/-- Modelled from the spec: a zone is in force on a date iff its effective
date is unset or on or before it and its expiry date is unset or on or after
it. -/
def inForce (date : Int) (z : ParkingZone) : Bool :=
  (match z.effectiveDate with
   | none => true
   | some d => decide (d ≤ date)) &&
  (match z.expiryDate with
   | none => true
   | some d => decide (d ≥ date))

/-- Modelled from the spec: step 2 of the resolver, the zones whose geometry
contains the point; a malformed geometry fails the whole call. -/
def containing (p : Point) : List ParkingZone → Except CoreError (List ParkingZone)
  | [] => Except.ok []
  | z :: zs =>
    match pointInPolygon p z.geometry with
    | Except.error e => Except.error e
    | Except.ok inside =>
      match containing p zs with
      | Except.error e => Except.error e
      | Except.ok rest => Except.ok (if inside then z :: rest else rest)

/-- Modelled from the spec: step 3 of the resolver: a zone stays while its
temporal rule is active, and a `legal` zone stays unconditionally. -/
def contributes (t : Instant) (z : ParkingZone) : Bool :=
  ruleActive z.rule t || decide (z.zoneType = ZoneType.legal)

/-- Modelled from the spec: whether time limit `a` is the tighter bound; a
zone without a time limit has the loosest. -/
def tighterLimit (a b : Option Nat) : Bool :=
  match a, b with
  | some x, some y => decide (x < y)
  | some _, none => true
  | none, _ => false

/-- Modelled from the spec: `a` comes before `b` in the order of the
tie-break: higher severity, then the smaller time limit, then the lower id. -/
def moreRestrictive (a b : ParkingZone) : Bool :=
  decide (severity a.zoneType > severity b.zoneType) ||
  (decide (severity a.zoneType = severity b.zoneType) &&
    (tighterLimit a.timeLimitMinutes b.timeLimitMinutes ||
      (decide (a.timeLimitMinutes = b.timeLimitMinutes) &&
        decide (a.id.toList < b.id.toList))))

/-- Modelled from the spec: the most restrictive zone of a non-empty list. -/
def mostRestrictive (first : ParkingZone) (others : List ParkingZone) : ParkingZone :=
  others.foldl (fun best z => if moreRestrictive z best then z else best) first

/-- Modelled from the spec: step 4 of the resolver, the verdict from the zones
that remain. -/
def verdictOf (t : Instant) (remaining : List ParkingZone) : LegalityVerdict :=
  match remaining with
  | [] => ⟨none, none, none, none, [], t.timestamp⟩
  | z :: zs =>
    match (z :: zs).filter (fun x => decide (x.zoneType ≠ ZoneType.legal)) with
    | r :: rs =>
      ⟨some false, some (mostRestrictive r rs).zoneType,
        some (mostRestrictive r rs).restrictions, (mostRestrictive r rs).timeLimitMinutes, [],
        t.timestamp⟩
    | [] =>
      ⟨some true, some (mostRestrictive z zs).zoneType,
        some (mostRestrictive z zs).restrictions, (mostRestrictive z zs).timeLimitMinutes, [],
        t.timestamp⟩

/-- Modelled from the spec: `resolve(point, at, candidateZones)`, the zone
resolver of section 4.3: the zones in force, containing the point and
contributing at the instant, merged into one verdict. -/
def resolve (point : Point) (t : Instant) (candidateZones : List ParkingZone) :
    Except CoreError LegalityVerdict :=
  if validCoordinate point then
    match containing point (candidateZones.filter (inForce t.date)) with
    | Except.error e => Except.error e
    | Except.ok inside => Except.ok (verdictOf t (inside.filter (contributes t)))
  else Except.error CoreError.InvalidCoordinate

/-- Modelled from the spec: the rows of the SQL function
`check_parking_legality(lat, lng, at)`, defined in `schema.sql` which is not
among the sources, as the handler reads them: no row for the verdict unknown,
else one row holding the verdict of the resolver. -/
def legalityRows (v : LegalityVerdict) : List LegalityRow :=
  match v.isLegal with
  | none => []
  | some legal =>
    [⟨some legal, (v.zoneType.map ZoneType.name).getD "", v.restrictions.getD "",
      v.timeLimitMinutes.map (fun n => (n : Int))⟩]

/-- Modelled from the spec: the SQL function `check_parking_legality` over the
zones on file, in the local time of the zone `tz`. -/
def checkParkingLegality (zones : List ParkingZone) (tz : TimeZone) (lat lng : Rat)
    (timestamp : Int) : Except CoreError (List LegalityRow) :=
  match resolve (ST_MakePoint lng lat) (instantAt tz timestamp) zones with
  | Except.ok v => Except.ok (legalityRows v)
  | Except.error e => Except.error e

end Core

/-- Modelled from the spec: a database whose legality lookup is the resolver
of the specification over the given zones; an error of the resolver reaches
the handler as a thrown error. -/
def resolverDb (pg : Postgres) (zones : List Core.ParkingZone) (tz : TimeZone) : Db :=
  { pg.db with
    checkParkingLegality := fun lat lng =>
      match Core.checkParkingLegality zones tz lat lng pg.CURRENT_TIMESTAMP with
      | Except.ok rows => Except.ok rows
      | Except.error Core.CoreError.InvalidCoordinate => Except.error "InvalidCoordinate"
      | Except.error Core.CoreError.InvalidGeometry => Except.error "InvalidGeometry" }

/-- One Newton step towards the square root of `x`. -/
def newtonStep (x y : Rat) : Rat := (y + x / y) / 2

/-- A rational stand-in for the floating-point library, for the examples:
Taylor polynomials of low order, two Newton steps for the square root, and
355/113 for pi. -/
def sampleMath : Core.FloatMath where
  sin x := x - x ^ 3 / 6
  cos x := 1 - x ^ 2 / 2
  asin x := x + x ^ 3 / 6
  sqrt x := if x ≤ 0 then 0 else newtonStep x (newtonStep x ((x + 1) / 2))
  pi := 355 / 113

/-- Modelled from the spec: the day of the week that a seeded window names. -/
def Core.parseDay (s : String) : Option Core.DayOfWeek :=
  if s = "sunday" then some Core.DayOfWeek.sunday
  else if s = "monday" then some Core.DayOfWeek.monday
  else if s = "tuesday" then some Core.DayOfWeek.tuesday
  else if s = "wednesday" then some Core.DayOfWeek.wednesday
  else if s = "thursday" then some Core.DayOfWeek.thursday
  else if s = "friday" then some Core.DayOfWeek.friday
  else if s = "saturday" then some Core.DayOfWeek.saturday
  else none

/-- Modelled from the spec: a time of day written `H:MM`, in milliseconds
since midnight. -/
def Core.parseClock (cs : List Char) : Option Int :=
  match splitAt (Char.ofNat 58) cs with
  | [h, m] =>
    match digitsValue h, digitsValue m with
    | some hours, some minutes =>
      if hours < 24 ∧ minutes < 60 then some ((hours * 3600000 + minutes * 60000 : Nat) : Int)
      else none
    | _, _ => none
  | _ => none

/-- Modelled from the spec: a window written `start-end`, as its start and end
times. -/
def Core.parseWindow (s : String) : Option (Int × Int) :=
  match splitAt (Char.ofNat 45) s.toList with
  | [a, b] =>
    match Core.parseClock a, Core.parseClock b with
    | some startTime, some endTime => some (startTime, endTime)
    | _, _ => none
  | _ => none

/-- Modelled from the spec: the `streetCleaning` of the data model,
`{dayOfWeek, startTime, endTime}`, read from the `day` and `time` of a seeded
zone as a day-scoped rule. -/
def Core.streetCleaningRule (sc : List (String × String)) : Option Core.TemporalRule :=
  match sc.lookup "day", sc.lookup "time" with
  | some day, some time =>
    match Core.parseDay day, Core.parseWindow time with
    | some d, some w => some (Core.TemporalRule.streetCleaning d w.1 w.2)
    | _, _ => none
  | _, _ => none

/-- A square of two degrees around 37 N 122 W, as a closed ring. -/
def squareRing : List Point :=
  [⟨36, -123⟩, ⟨36, -121⟩, ⟨38, -121⟩, ⟨38, -123⟩, ⟨36, -123⟩]

/-- A zone where parking is prohibited at all times. -/
def prohibitedZone : Core.ParkingZone :=
  ⟨"z-prohibited", Core.ZoneType.prohibited, squareRing, "no parking", none, none, none, none⟩

/-- A zone with a two-hour limit whose restriction applies from 02:00 to
06:00. -/
def timeLimitedZone : Core.ParkingZone :=
  ⟨"z-limited", Core.ZoneType.time_limited, squareRing, "prohibited_hours 2:00-6:00",
    some 120, some (Core.TemporalRule.prohibitedHours 7200000 21600000), none, none⟩

/-- A database on Tuesday 12 March 2024 at 10:00:00Z, 03:00 in San Francisco. -/
def tuesdayPg : Postgres :=
  { emptyPg with CURRENT_TIMESTAMP := 1710237600000, CURRENT_DATE := 19794 }

/-- Middleware that hands every request on. -/
def passAll : AppRequest → MiddlewareVerdict := fun _ => MiddlewareVerdict.pass

/-- Handler stacks that are never reached in the examples. -/
def idleRun : AppRequest → AppRoute → List (String × String) → Result :=
  fun _ _ _ => ⟨Outcome.nextError "unreachable", []⟩

/-- An environment that sets the lifetime of the tokens to seven days. -/
def sevenDayEnv : Env := ⟨some "production", none, some "s3cret", some "7d"⟩

/-- A stand-in for `jsonwebtoken` that accepts the one token `good`, issued to
the anonymous user `u-42`. -/
def checkingJwt : Jwt where
  sign _ _ _ := Except.error "not used"
  verify token _ :=
    if token = "good" then Except.ok ⟨"u-42", true⟩ else Except.error "jwt malformed"

/-- Two services of a cached bundle. -/
def cachedServices : List StoreService := [⟨"s1", "North Shelter"⟩, ⟨"s3", "West Kitchen"⟩]

/-- A cached bundle. -/
def cachedBundle : OfflineBundle := ⟨"2024-03-10T09:30:00.000Z", "1.0", some cachedServices⟩

/-- A device whose cache holds the bundle under `offline_services`. -/
def cachedDevice : Device where
  getItem key := if key = "offline_services" then Except.ok (some "bundle") else Except.ok none
  parseBundle text :=
    if text = "bundle" then Except.ok cachedBundle else Except.error "SyntaxError"
  stringifyIds ids := String.intercalate "," ids

/-- A device with an empty cache. -/
def blankDevice : Device where
  getItem _ := Except.ok none
  parseBundle _ := Except.error "SyntaxError"
  stringifyIds ids := String.intercalate "," ids

/-! ## The offline bundle route -/

/-- The detail handler answers 404 or 200 with one service, or hands an error
on; it never calls `next()` and never sends a bundle. -/
theorem serviceDetail_outcome (db : Db) (req : Request) (id : String) :
    (serviceDetail db req id).outcome = Outcome.json 404 (Body.error "Service not found") ∨
    (∃ row, (serviceDetail db req id).outcome = Outcome.json 200 (Body.service row)) ∨
    (∃ e, (serviceDetail db req id).outcome = Outcome.nextError e) := by
  unfold serviceDetail
  split
  · exact Or.inl rfl
  · split
    · split
      · exact Or.inr (Or.inl ⟨_, rfl⟩)
      · exact Or.inr (Or.inr ⟨_, rfl⟩)
    · exact Or.inr (Or.inl ⟨_, rfl⟩)
  · exact Or.inr (Or.inr ⟨_, rfl⟩)

/-- A route whose method and path match, and whose handler does not call
`next()`, takes the request. -/
theorem dispatch_cons_match {H β S : Type} (run : H → List (String × String) → Handled β S)
    (r : Route H) (rs : List (Route H)) (m : Method) (path : List String)
    (params : List (String × String)) (hm : handlesMethod r.method m = true)
    (hp : matchPath r.path path = some params)
    (hn : (run r.handler params).outcome ≠ Outcome.next) :
    dispatch run (r :: rs) m path = some (r.handler, run r.handler params) := by
  unfold dispatch
  rw [if_pos hm, hp]
  simp only
  split
  · rename_i h
    rw [h] at hn
    exact absurd rfl hn
  · rfl

/-- A route whose method or path does not match is passed over. -/
theorem dispatch_cons_skip {H β S : Type} (run : H → List (String × String) → Handled β S)
    (r : Route H) (rs : List (Route H)) (m : Method) (path : List String)
    (h : handlesMethod r.method m = false ∨ matchPath r.path path = none) :
    dispatch run (r :: rs) m path = dispatch run rs m path := by
  rw [dispatch]
  split
  · rcases h with h | h
    · rename_i hm
      rw [h] at hm
      exact absurd hm (by decide)
    · rw [h]
  · rfl

/-- C1, at the failing input: a GET for `/services/offline-bundle` (any query
string, any database) is taken by the route `'/:id'`, registered before
`'/offline-bundle'`, with `id = 'offline-bundle'`; the offline bundle handler
does not run and no bundle object is sent. -/
theorem offline_bundle_taken_by_detail_route (db : Db) (now : Int) (req : Request) :
    servicesApp db now req Method.GET ["offline-bundle"] =
      some (ServicesRoute.detail, serviceDetail db req "offline-bundle") ∧
    ∀ status g c r sv v, (serviceDetail db req "offline-bundle").outcome ≠
      Outcome.json status (Body.bundle g c r sv v) := by
  have hout := serviceDetail_outcome db req "offline-bundle"
  constructor
  · have hne : (serviceDetail db req "offline-bundle").outcome ≠ Outcome.next := by
      rcases hout with h | ⟨row, h⟩ | ⟨e, h⟩ <;> rw [h] <;> simp
    unfold servicesApp servicesRouter
    rw [dispatch_cons_skip _ _ _ _ _ (Or.inr (by decide))]
    exact dispatch_cons_match (runServicesRoute db now req)
      ⟨Method.GET, [PathSeg.param "id"], ServicesRoute.detail⟩ _ Method.GET
      ["offline-bundle"] [("id", "offline-bundle")] rfl (by decide) hne
  · intro status g c r sv v
    rcases hout with h | ⟨row, h⟩ | ⟨e, h⟩ <;> rw [h] <;> simp

/-! ## The lifetime of a report -/

/-- Setting the local hour to `getHours() + k` moves the wall-clock reading by
`k` hours; the instant that results depends on the offsets at both ends. -/
theorem setHours_getHours_add (tz : TimeZone) (now k : Int) :
    setHours tz now (getHours tz now + k) =
      LocalTime tz now + k * msPerHour - tz.offsetAtLocal (LocalTime tz now + k * msPerHour) := by
  have h : MakeDate (Day (LocalTime tz now))
      (MakeTime (getHours tz now + k) (MinFromTime (LocalTime tz now))
        (SecFromTime (LocalTime tz now)) (msFromTime (LocalTime tz now))) =
      LocalTime tz now + k * msPerHour := by
    unfold getHours
    generalize LocalTime tz now = t
    simp only [MakeDate, MakeTime, Day, HourFromTime, MinFromTime, SecFromTime,
      msFromTime, msPerDay, msPerHour, msPerMinute, msPerSecond]
    omega
  simp only [setHours, UTC, h]

/-- On a host whose offset from UTC never changes (UTC itself, say) the expiry
is 2 hours after the handling instant for an enforcement report and 24 hours
after it for the other types. -/
theorem reportExpiresAt_fixed_offset (tz : TimeZone) (c : Int)
    (hu : ∀ t, tz.offsetAtUtc t = c) (hl : ∀ t, tz.offsetAtLocal t = c) (now : Int)
    (type : String) :
    reportExpiresAt tz now type =
      if type = "enforcement" then now + 2 * msPerHour else now + 24 * msPerHour := by
  unfold reportExpiresAt
  rw [setHours_getHours_add, setHours_getHours_add]
  simp only [LocalTime, hu, hl]
  split <;> ring

/-- C2, at the failing input: on a host in the zone America/Los_Angeles, an
enforcement report handled at 2024-03-10T09:30:00Z (01:30 local, half an hour
before the clocks go forward) is stored and returned with an expiry of
10:30:00Z, one hour after the handling instant and not two. -/
theorem enforcement_report_expiry_across_dst (pg : Postgres) :
    parkingReport pg.db pacificSpring2024 1710063000000 enforcementReport =
      ⟨Outcome.json 201
          (Body.reportSubmitted pg.newId "Report submitted successfully" 1710066600000),
        [Sql.insertParkingAlert (some sfLat) (some sfLng) (some (textParam "enforcement"))
          none none 1710066600000]⟩ ∧
    (1710066600000 : Int) = 1710063000000 + 1 * msPerHour := by
  constructor
  · rfl
  · decide

/-! ## The legality check when the lookup finds no zone -/

/-- C3: for a request that passes validation, when the legality lookup returns
zero rows the check handler answers 200 (the default status of `res.json`) with
`is_legal` null and `status` 'unknown'; it does not hand an error on. -/
theorem parkingCheck_no_rows (db : Db) (now : Int) (req : Request)
    (hvalid : checkValidators req.query = [])
    (hrows : db.checkParkingLegality (parseFloat req.query.lat) (parseFloat req.query.lng) =
      Except.ok []) :
    parkingCheck db now req =
      ⟨Outcome.json 200 (Body.noParkingInformation none "unknown"
          "No parking information available for this location"),
        [Sql.selectCheckParkingLegality (parseFloat req.query.lat) (parseFloat req.query.lng)]⟩ := by
  simp only [parkingCheck, hvalid, hrows, List.isEmpty_nil, Bool.not_true]
  rfl

theorem parkingCheck_no_rows_witness :
    parkingCheck emptyPg.db 1710063000000 (latLngRequest sfLatParam sfLngParam) =
      ⟨Outcome.json 200 (Body.noParkingInformation none "unknown"
          "No parking information available for this location"),
        [Sql.selectCheckParkingLegality sfPoint.lat sfPoint.lng]⟩ :=
  parkingCheck_no_rows emptyPg.db 1710063000000 (latLngRequest sfLatParam sfLngParam)
    (by decide) rfl

/-! ## Coordinates out of range -/

/-- A required float field whose value is outside the bounds yields an error. -/
theorem required_isFloat_out_of_range (path msg : String) (min max : Rat) (p : Param)
    (x : Rat) (hp : p.asFloat = some x) (hx : x < min ∨ max < x) :
    required path msg (isFloat min max) (some p) = [⟨path, msg⟩] := by
  have hf : isFloat min max p = false := by
    simp only [isFloat, hp]
    rcases hx with h | h
    · simp [not_le.mpr h]
    · simp [not_le.mpr h]
  simp [required, hf]

/-- With an out-of-range coordinate the `lat` and `lng` checks leave an error. -/
theorem lat_lng_errors (m1 m2 : String) (q : Query) (h : LatLngOutOfRange q) :
    required "lat" m1 (isFloat (-90) 90) q.lat ++
      required "lng" m2 (isFloat (-180) 180) q.lng ≠ [] := by
  rcases h with ⟨p, x, hq, hp, hx⟩ | ⟨p, x, hq, hp, hx⟩
  · rw [hq, required_isFloat_out_of_range "lat" m1 (-90) 90 p x hp hx]
    simp
  · rw [hq, required_isFloat_out_of_range "lng" m2 (-180) 180 p x hp hx]
    simp

/-- C4: a request to the zones, check or alerts listing of the parking router,
to the services search or to the nearest emergency resources whose `lat` is
outside [-90, 90] or whose `lng` is outside [-180, 180] is answered 400 with the
non-empty list of validation errors, and the handler issues no SQL statement. -/
theorem out_of_range_coordinates_rejected (db : Db) (now : Int) (req : Request)
    (h : LatLngOutOfRange req.query) :
    (parkingZones db req = ⟨Outcome.json 400 (Body.errors (zonesValidators req.query)), []⟩ ∧
      zonesValidators req.query ≠ []) ∧
    (parkingCheck db now req =
        ⟨Outcome.json 400 (Body.errors (checkValidators req.query)), []⟩ ∧
      checkValidators req.query ≠ []) ∧
    (parkingAlerts db req = ⟨Outcome.json 400 (Body.errors (alertsValidators req.query)), []⟩ ∧
      alertsValidators req.query ≠ []) ∧
    (servicesSearch db req = ⟨Outcome.json 400 (Body.errors (searchValidators req.query)), []⟩ ∧
      searchValidators req.query ≠ []) ∧
    (emergencyNearest db req =
        ⟨Outcome.json 400 (Body.errors (nearestValidators req.query)), []⟩ ∧
      nearestValidators req.query ≠ []) := by
  have hz : zonesValidators req.query ≠ [] := by
    have := lat_lng_errors invalidValue invalidValue req.query h
    simp only [zonesValidators, ne_eq, List.append_eq_nil, not_and] at this ⊢
    tauto
  have hc : checkValidators req.query ≠ [] :=
    lat_lng_errors invalidValue invalidValue req.query h
  have ha : alertsValidators req.query ≠ [] := by
    have := lat_lng_errors invalidValue invalidValue req.query h
    simp only [alertsValidators, ne_eq, List.append_eq_nil, not_and] at this ⊢
    tauto
  have hs : searchValidators req.query ≠ [] := by
    have := lat_lng_errors "Invalid latitude" "Invalid longitude" req.query h
    simp only [searchValidators, ne_eq, List.append_eq_nil, not_and] at this ⊢
    tauto
  have hn : nearestValidators req.query ≠ [] := by
    have := lat_lng_errors invalidValue invalidValue req.query h
    simp only [nearestValidators, ne_eq, List.append_eq_nil, not_and] at this ⊢
    tauto
  have key : ∀ l : List ValidationError, l ≠ [] → (!l.isEmpty) = true := by
    intro l hl
    cases l with
    | nil => exact absurd rfl hl
    | cons a t => rfl
  refine ⟨⟨?_, hz⟩, ⟨?_, hc⟩, ⟨?_, ha⟩, ⟨?_, hs⟩, ⟨?_, hn⟩⟩
  · simp only [parkingZones, key _ hz, if_true, badRequest]
  · simp only [parkingCheck, key _ hc, if_true, badRequest]
  · simp only [parkingAlerts, key _ ha, if_true, badRequest]
  · simp only [servicesSearch, key _ hs, if_true, badRequest]
  · simp only [emergencyNearest, key _ hn, if_true, badRequest]

theorem out_of_range_coordinates_rejected_witness :
    LatLngOutOfRange (latLngRequest badLatParam sfLngParam).query ∧
    parkingCheck emptyPg.db 1710063000000 (latLngRequest badLatParam sfLngParam) =
      ⟨Outcome.json 400 (Body.errors [⟨"lat", "Invalid value"⟩]), []⟩ ∧
    servicesSearch emptyPg.db (latLngRequest badLatParam sfLngParam) =
      ⟨Outcome.json 400 (Body.errors [⟨"lat", "Invalid latitude"⟩]), []⟩ :=
  have hbad : LatLngOutOfRange (latLngRequest badLatParam sfLngParam).query :=
    Or.inl ⟨badLatParam, 91, rfl, rfl, Or.inr (by decide)⟩
  have hall := out_of_range_coordinates_rejected emptyPg.db 1710063000000
    (latLngRequest badLatParam sfLngParam) hbad
  ⟨hbad, hall.2.1.1, hall.2.2.2.1.1⟩

/-! ## Result sets ordered by distance -/

/-- Ordering by a rational key is a total preorder, so the engine sorts it; the
first `n` rows are ascending and no row left out is nearer than one of them. -/
theorem ranked_take {α : Type} (e : SortEngine) (key : α → Rat) (l : List α) (n : Nat) :
    (e.sort (fun a b => decide (key a ≤ key b)) l).Perm l ∧
    (e.sort (fun a b => decide (key a ≤ key b)) l).Pairwise (fun a b => key a ≤ key b) ∧
    ((e.sort (fun a b => decide (key a ≤ key b)) l).take n).Pairwise
      (fun a b => key a ≤ key b) ∧
    ((e.sort (fun a b => decide (key a ≤ key b)) l).take n).length ≤ n ∧
    ∀ r ∈ (e.sort (fun a b => decide (key a ≤ key b)) l).take n,
      ∀ o ∈ (e.sort (fun a b => decide (key a ≤ key b)) l).drop n, key r ≤ key o := by
  have hs : (e.sort (fun a b => decide (key a ≤ key b)) l).Pairwise
      (fun a b => key a ≤ key b) := by
    have h := e.sorted (fun a b => decide (key a ≤ key b)) l
      (fun a b => by simpa using le_total (key a) (key b))
      (fun a b c hab hbc => by simpa using le_trans (by simpa using hab) (by simpa using hbc))
    exact h.imp (fun hab => by simpa using hab)
  refine ⟨e.perm _ l, hs, hs.sublist (List.take_sublist n _), List.length_take_le n _, ?_⟩
  intro r hr o ho
  have h := hs
  rw [← List.take_append_drop n (e.sort (fun a b => decide (key a ≤ key b)) l)] at h
  exact (List.pairwise_append.mp h).2.2 r hr o ho

/-- The rows of the alerts listing before the `LIMIT` are the rows of the
alerts that pass the `WHERE` clause. -/
theorem mem_alertsOrdered (pg : Postgres) (lat lng : Rat) (radius : Int) (r : AlertRow) :
    r ∈ pg.alertsOrdered lat lng radius ↔
      ∃ a ∈ pg.parking_alerts, pg.CURRENT_TIMESTAMP < a.expires_at ∧
        ST_DWithin pg a.location (ST_MakePoint lng lat) radius = true ∧
        alertRow pg (ST_MakePoint lng lat) a = r := by
  unfold Postgres.alertsOrdered
  rw [(pg.engine.perm _ _).mem_iff]
  simp only [Postgres.activeAlerts, List.mem_map, List.mem_filter, Bool.and_eq_true,
    decide_eq_true_eq, gt_iff_lt]
  constructor
  · rintro ⟨a, ⟨ha, he, hw⟩, rfl⟩
    exact ⟨a, ha, he, hw, rfl⟩
  · rintro ⟨a, ha, he, hw, rfl⟩
    exact ⟨a, ⟨ha, he, hw⟩, rfl⟩

/-- A valid alerts request is answered 200 with the rows of the listing. -/
theorem parkingAlerts_valid (pg : Postgres) (req : Request)
    (hvalid : alertsValidators req.query = []) :
    parkingAlerts pg.db req =
      ⟨Outcome.json 200
          (Body.alerts
            (pg.alertsNear (parseFloat req.query.lat) (parseFloat req.query.lng)
              (alertsRadius req.query)).length
            (pg.alertsNear (parseFloat req.query.lat) (parseFloat req.query.lng)
              (alertsRadius req.query))),
        [Sql.selectAlertsNear (parseFloat req.query.lat) (parseFloat req.query.lng)
          (alertsRadius req.query)]⟩ := by
  simp only [parkingAlerts, hvalid, List.isEmpty_nil, Bool.not_true]
  rfl

/-! ## The alerts listing: expiry and radius -/

/-- C5: every alert returned by the alerts listing expires strictly after the
query time and lies within the requested radius of the query point (its
`distance_meters` is at most the radius); an alert whose `expires_at` equals the
query time is not returned. -/
theorem alerts_listing_unexpired_within_radius (pg : Postgres) (req : Request)
    (hvalid : alertsValidators req.query = []) :
    ∃ rows, parkingAlerts pg.db req =
        ⟨Outcome.json 200 (Body.alerts rows.length rows),
          [Sql.selectAlertsNear (parseFloat req.query.lat) (parseFloat req.query.lng)
            (alertsRadius req.query)]⟩ ∧
      (∀ r ∈ rows, pg.CURRENT_TIMESTAMP < r.expires_at ∧
        r.distance_meters ≤ (alertsRadius req.query : Rat) ∧
        ∃ a ∈ pg.parking_alerts, alertRow pg (queryPoint req.query) a = r ∧
          pg.CURRENT_TIMESTAMP < a.expires_at ∧
          ST_DWithin pg a.location (queryPoint req.query) (alertsRadius req.query) = true) ∧
      (∀ a ∈ pg.parking_alerts, a.expires_at = pg.CURRENT_TIMESTAMP →
        alertRow pg (queryPoint req.query) a ∉ rows) := by
  refine ⟨_, parkingAlerts_valid pg req hvalid, ?_, ?_⟩
  · intro r hr
    obtain ⟨a, ha, he, hw, rfl⟩ :=
      (mem_alertsOrdered pg _ _ _ r).mp (List.mem_of_mem_take hr)
    refine ⟨he, ?_, a, ha, rfl, he, hw⟩
    simpa [ST_DWithin] using hw
  · intro a _ hexp hmem
    obtain ⟨b, _, he, _, hrow⟩ :=
      (mem_alertsOrdered pg _ _ _ _).mp (List.mem_of_mem_take hmem)
    have : b.expires_at = a.expires_at := congrArg AlertRow.expires_at hrow
    rw [this, hexp] at he
    exact lt_irrefl _ he

theorem alerts_listing_unexpired_within_radius_witness :
    alertsValidators (latLngRequest sfLatParam sfLngParam).query = [] ∧
    ∃ rows, parkingAlerts alertsPg.db (latLngRequest sfLatParam sfLngParam) =
        ⟨Outcome.json 200 (Body.alerts rows.length rows),
          [Sql.selectAlertsNear sfPoint.lat sfPoint.lng 2000]⟩ ∧
      (∀ r ∈ rows, alertsPg.CURRENT_TIMESTAMP < r.expires_at ∧
        r.distance_meters ≤ ((2000 : Int) : Rat) ∧
        ∃ a ∈ alertsPg.parking_alerts, alertRow alertsPg sfPoint a = r ∧
          alertsPg.CURRENT_TIMESTAMP < a.expires_at ∧
          ST_DWithin alertsPg a.location sfPoint 2000 = true) ∧
      (∀ a ∈ alertsPg.parking_alerts, a.expires_at = alertsPg.CURRENT_TIMESTAMP →
        alertRow alertsPg sfPoint a ∉ rows) :=
  ⟨by decide,
    alerts_listing_unexpired_within_radius alertsPg (latLngRequest sfLatParam sfLngParam)
      (by decide)⟩

/-- C6, counterexample: an alert 1112 m from the query point (radius 2000 m)
whose `expires_at` equals the query time is left out of the listing although the
query time is not later than its `expires_at`. -/
theorem alert_at_expiry_instant_not_listed :
    expiringAlert ∈ alertsPg.parking_alerts ∧
    ST_DWithin alertsPg expiringAlert.location sfPoint 2000 = true ∧
    alertsPg.CURRENT_TIMESTAMP = expiringAlert.expires_at ∧
    parkingAlerts alertsPg.db (latLngRequest sfLatParam sfLngParam) =
      ⟨Outcome.json 200
          (Body.alerts 1 [⟨"a2", "enforcement", none, none, westPoint.lat, westPoint.lng,
            1710059400000, 1710066600000, 879⟩]),
        [Sql.selectAlertsNear sfPoint.lat sfPoint.lng 2000]⟩ ∧
    ¬ (alertRow alertsPg sfPoint expiringAlert ∉
          alertsPg.alertsNear sfPoint.lat sfPoint.lng 2000 ↔
        alertsPg.CURRENT_TIMESTAMP > expiringAlert.expires_at) := by
  refine ⟨by decide, by decide, by decide, by decide, ?_⟩
  intro h
  have hnot : alertRow alertsPg sfPoint expiringAlert ∉
      alertsPg.alertsNear sfPoint.lat sfPoint.lng 2000 := by decide
  exact absurd (h.mp hnot) (by decide)

/-- C6, as the code has it: an alert within the radius passes the expiry filter
exactly when the query time is strictly before its `expires_at`. At or after
`expires_at` it is not listed; before `expires_at` it is among the surviving
alerts and is listed whenever at most 20 alerts survive. -/
theorem alert_listed_iff_unexpired (pg : Postgres) (req : Request)
    (hvalid : alertsValidators req.query = []) (a : ParkingAlert)
    (ha : a ∈ pg.parking_alerts)
    (hr : ST_DWithin pg a.location (queryPoint req.query) (alertsRadius req.query) = true) :
    ∃ rows, parkingAlerts pg.db req =
        ⟨Outcome.json 200 (Body.alerts rows.length rows),
          [Sql.selectAlertsNear (parseFloat req.query.lat) (parseFloat req.query.lng)
            (alertsRadius req.query)]⟩ ∧
      (a ∈ pg.activeAlerts (queryPoint req.query) (alertsRadius req.query) ↔
        pg.CURRENT_TIMESTAMP < a.expires_at) ∧
      (a.expires_at ≤ pg.CURRENT_TIMESTAMP →
        alertRow pg (queryPoint req.query) a ∉ rows) ∧
      (pg.CURRENT_TIMESTAMP < a.expires_at →
        (pg.activeAlerts (queryPoint req.query) (alertsRadius req.query)).length ≤ 20 →
        alertRow pg (queryPoint req.query) a ∈ rows) := by
  refine ⟨_, parkingAlerts_valid pg req hvalid, ?_, ?_, ?_⟩
  · simp [Postgres.activeAlerts, ha, hr]
  · intro hexp hmem
    obtain ⟨b, _, he, _, hrow⟩ :=
      (mem_alertsOrdered pg _ _ _ _).mp (List.mem_of_mem_take hmem)
    have : b.expires_at = a.expires_at := congrArg AlertRow.expires_at hrow
    rw [this] at he
    exact absurd he (not_lt.mpr hexp)
  · intro he hlen
    have hmem : alertRow pg (queryPoint req.query) a ∈
        pg.alertsOrdered (parseFloat req.query.lat) (parseFloat req.query.lng)
          (alertsRadius req.query) :=
      (mem_alertsOrdered pg _ _ _ _).mpr ⟨a, ha, he, hr, rfl⟩
    have hl : (pg.alertsOrdered (parseFloat req.query.lat) (parseFloat req.query.lng)
        (alertsRadius req.query)).length ≤ 20 := by
      unfold Postgres.alertsOrdered
      rw [(pg.engine.perm _ _).length_eq, List.length_map]
      exact hlen
    unfold Postgres.alertsNear
    rw [List.take_of_length_le hl]
    exact hmem

theorem alert_listed_iff_unexpired_witness :
    alertsValidators (latLngRequest sfLatParam sfLngParam).query = [] ∧
    expiringAlert ∈ alertsPg.parking_alerts ∧
    ST_DWithin alertsPg expiringAlert.location
      (queryPoint (latLngRequest sfLatParam sfLngParam).query)
      (alertsRadius (latLngRequest sfLatParam sfLngParam).query) = true ∧
    ∃ rows, parkingAlerts alertsPg.db (latLngRequest sfLatParam sfLngParam) =
        ⟨Outcome.json 200 (Body.alerts rows.length rows),
          [Sql.selectAlertsNear sfPoint.lat sfPoint.lng 2000]⟩ ∧
      (expiringAlert ∈ alertsPg.activeAlerts sfPoint 2000 ↔
        alertsPg.CURRENT_TIMESTAMP < expiringAlert.expires_at) ∧
      (expiringAlert.expires_at ≤ alertsPg.CURRENT_TIMESTAMP →
        alertRow alertsPg sfPoint expiringAlert ∉ rows) ∧
      (alertsPg.CURRENT_TIMESTAMP < expiringAlert.expires_at →
        (alertsPg.activeAlerts sfPoint 2000).length ≤ 20 →
        alertRow alertsPg sfPoint expiringAlert ∈ rows) :=
  ⟨by decide, by decide, by decide,
    alert_listed_iff_unexpired alertsPg (latLngRequest sfLatParam sfLngParam) (by decide)
      expiringAlert (by decide) (by decide)⟩

/-! ## The alerts listing: order and size -/

/-- C7: the alerts listing is the first 20 rows of the surviving (unexpired,
within the radius) alerts in an order ascending in `distance_meters`: it is
non-decreasing in distance, has at most 20 rows, and no surviving alert left
out is nearer than a returned one. -/
theorem alerts_listing_nearest_twenty (pg : Postgres) (req : Request)
    (hvalid : alertsValidators req.query = []) :
    ∃ rows ordered : List AlertRow, parkingAlerts pg.db req =
        ⟨Outcome.json 200 (Body.alerts rows.length rows),
          [Sql.selectAlertsNear (parseFloat req.query.lat) (parseFloat req.query.lng)
            (alertsRadius req.query)]⟩ ∧
      ordered.Perm ((pg.activeAlerts (queryPoint req.query) (alertsRadius req.query)).map
        (alertRow pg (queryPoint req.query))) ∧
      ordered.Pairwise (fun a b => a.distance_meters ≤ b.distance_meters) ∧
      rows = ordered.take 20 ∧
      rows.Pairwise (fun a b => a.distance_meters ≤ b.distance_meters) ∧
      rows.length ≤ 20 ∧
      ∀ r ∈ rows, ∀ o ∈ ordered.drop 20, r.distance_meters ≤ o.distance_meters := by
  obtain ⟨hperm, hsorted, htake, hlen, hrest⟩ :=
    ranked_take pg.engine AlertRow.distance_meters
      ((pg.activeAlerts (queryPoint req.query) (alertsRadius req.query)).map
        (alertRow pg (queryPoint req.query))) 20
  exact ⟨pg.alertsNear (parseFloat req.query.lat) (parseFloat req.query.lng)
      (alertsRadius req.query),
    pg.alertsOrdered (parseFloat req.query.lat) (parseFloat req.query.lng)
      (alertsRadius req.query),
    parkingAlerts_valid pg req hvalid, hperm, hsorted, rfl, htake, hlen, hrest⟩

theorem alerts_listing_nearest_twenty_witness :
    alertsValidators (latLngRequest sfLatParam sfLngParam).query = [] ∧
    ∃ rows ordered : List AlertRow, parkingAlerts alertsPg.db (latLngRequest sfLatParam sfLngParam) =
        ⟨Outcome.json 200 (Body.alerts rows.length rows),
          [Sql.selectAlertsNear sfPoint.lat sfPoint.lng 2000]⟩ ∧
      ordered.Perm ((alertsPg.activeAlerts sfPoint 2000).map (alertRow alertsPg sfPoint)) ∧
      ordered.Pairwise (fun a b => a.distance_meters ≤ b.distance_meters) ∧
      rows = ordered.take 20 ∧
      rows.Pairwise (fun a b => a.distance_meters ≤ b.distance_meters) ∧
      rows.length ≤ 20 ∧
      ∀ r ∈ rows, ∀ o ∈ ordered.drop 20, r.distance_meters ≤ o.distance_meters :=
  ⟨by decide,
    alerts_listing_nearest_twenty alertsPg (latLngRequest sfLatParam sfLngParam) (by decide)⟩

/-! ## The zones listing -/

/-- The date test of the zones query is the in-force condition of the data
model. -/
theorem zoneInForce_iff (today : Int) (z : ParkingZone) :
    zoneInForce today z = true ↔ InForce today z := by
  unfold zoneInForce InForce
  cases z.effective_date <;> cases z.expiry_date <;> simp

/-- The rows of the zones listing are the rows of the zones that pass the
`WHERE` clause. -/
theorem mem_zonesNear (pg : Postgres) (lat lng : Rat) (radius : Int) (r : ZoneRow) :
    r ∈ pg.zonesNear lat lng radius ↔
      ∃ z ∈ pg.parking_zones, zoneDWithin pg z.geometry (ST_MakePoint lng lat) radius = true ∧
        zoneInForce pg.CURRENT_DATE z = true ∧ zoneRow z = r := by
  unfold Postgres.zonesNear
  rw [(pg.engine.perm _ _).mem_iff]
  simp only [List.mem_map, List.mem_filter, Bool.and_eq_true]
  constructor
  · rintro ⟨z, ⟨hz, hw, hf⟩, rfl⟩
    exact ⟨z, hz, hw, hf, rfl⟩
  · rintro ⟨z, hz, hw, hf, rfl⟩
    exact ⟨z, ⟨hz, hw, hf⟩, rfl⟩

/-- A valid zones request is answered 200 with the rows of the listing. -/
theorem parkingZones_valid (pg : Postgres) (req : Request)
    (hvalid : zonesValidators req.query = []) :
    parkingZones pg.db req =
      ⟨Outcome.json 200
          (Body.zones
            (pg.zonesNear (parseFloat req.query.lat) (parseFloat req.query.lng)
              (zonesRadius req.query)).length
            (pg.zonesNear (parseFloat req.query.lat) (parseFloat req.query.lng)
              (zonesRadius req.query))),
        [Sql.selectZonesNear (parseFloat req.query.lat) (parseFloat req.query.lng)
          (zonesRadius req.query)]⟩ := by
  simp only [parkingZones, hvalid, List.isEmpty_nil, Bool.not_true]
  rfl

/-- C8: every zone returned by the zones listing is within the radius and in
force on the query date (effective date unset or on or before it, expiry date
unset or on or after it), and every zone within the radius that is in force is
returned. -/
theorem zones_listing_in_force (pg : Postgres) (req : Request)
    (hvalid : zonesValidators req.query = []) :
    ∃ rows, parkingZones pg.db req =
        ⟨Outcome.json 200 (Body.zones rows.length rows),
          [Sql.selectZonesNear (parseFloat req.query.lat) (parseFloat req.query.lng)
            (zonesRadius req.query)]⟩ ∧
      (∀ r ∈ rows, ∃ z ∈ pg.parking_zones, zoneRow z = r ∧ InForce pg.CURRENT_DATE z ∧
        zoneDWithin pg z.geometry (queryPoint req.query) (zonesRadius req.query) = true) ∧
      (∀ z ∈ pg.parking_zones,
        zoneDWithin pg z.geometry (queryPoint req.query) (zonesRadius req.query) = true →
        InForce pg.CURRENT_DATE z → zoneRow z ∈ rows) := by
  refine ⟨_, parkingZones_valid pg req hvalid, ?_, ?_⟩
  · intro r hr
    obtain ⟨z, hz, hw, hf, rfl⟩ := (mem_zonesNear pg _ _ _ r).mp hr
    exact ⟨z, hz, rfl, (zoneInForce_iff _ z).mp hf, hw⟩
  · intro z hz hw hf
    exact (mem_zonesNear pg _ _ _ _).mpr ⟨z, hz, hw, (zoneInForce_iff _ z).mpr hf, rfl⟩

theorem zones_listing_in_force_witness :
    zonesValidators (latLngRequest sfLatParam sfLngParam).query = [] ∧
    (zonesPg.zonesNear sfPoint.lat sfPoint.lng 1000).map ZoneRow.id = ["z1", "z3", "z2"] ∧
    ∃ rows, parkingZones zonesPg.db (latLngRequest sfLatParam sfLngParam) =
        ⟨Outcome.json 200 (Body.zones rows.length rows),
          [Sql.selectZonesNear sfPoint.lat sfPoint.lng 1000]⟩ ∧
      (∀ r ∈ rows, ∃ z ∈ zonesPg.parking_zones, zoneRow z = r ∧
        InForce zonesPg.CURRENT_DATE z ∧
        zoneDWithin zonesPg z.geometry sfPoint 1000 = true) ∧
      (∀ z ∈ zonesPg.parking_zones, zoneDWithin zonesPg z.geometry sfPoint 1000 = true →
        InForce zonesPg.CURRENT_DATE z → zoneRow z ∈ rows) :=
  ⟨by decide, by decide,
    zones_listing_in_force zonesPg (latLngRequest sfLatParam sfLngParam) (by decide)⟩

/-! ## The services search -/

/-- The rows of the services search before the `LIMIT` are the rows of the
services that pass the `WHERE` clause. -/
theorem mem_servicesOrdered (pg : Postgres) (lat lng : Rat) (radius : Int)
    (category : Option String) (r : ServiceRow) :
    r ∈ pg.servicesOrdered lat lng radius category ↔
      ∃ s ∈ pg.services, s.is_active = true ∧
        ST_DWithin pg s.location (ST_MakePoint lng lat) radius = true ∧
        (∀ c, category = some c → s.category = c) ∧
        serviceRow pg (ST_MakePoint lng lat) s = r := by
  unfold Postgres.servicesOrdered
  rw [(pg.engine.perm _ _).mem_iff]
  simp only [Postgres.matchingServices, List.mem_map, List.mem_filter, Bool.and_eq_true]
  constructor
  · rintro ⟨s, ⟨hs, ⟨ha, hw⟩, hc⟩, rfl⟩
    refine ⟨s, hs, ha, hw, ?_, rfl⟩
    intro c hcat
    subst hcat
    simpa using hc
  · rintro ⟨s, hs, ha, hw, hc, rfl⟩
    refine ⟨s, ⟨hs, ⟨ha, hw⟩, ?_⟩, rfl⟩
    cases category with
    | none => rfl
    | some c => simpa using hc c rfl

/-- A valid services search is answered 200 with the rows of the query, with
or without a signed-in user. -/
theorem servicesSearch_valid (pg : Postgres) (req : Request)
    (hvalid : searchValidators req.query = []) :
    (servicesSearch pg.db req).outcome =
      Outcome.json 200
        (Body.services
          (pg.servicesNear (parseFloat req.query.lat) (parseFloat req.query.lng)
            (searchRadius req.query) (categoryFilter req.query.category)).length
          (pg.servicesNear (parseFloat req.query.lat) (parseFloat req.query.lng)
            (searchRadius req.query) (categoryFilter req.query.category))) := by
  simp only [servicesSearch, hvalid, List.isEmpty_nil, Bool.not_true, Postgres.db]
  cases req.user <;> rfl

/-- C9: the services search returns the first 50 rows of the active services
within the radius (of the requested category, when one is given) in an order
ascending in `distance_meters`: every returned service is active, within the
radius and of that category, the rows are non-decreasing in distance, and
there are at most 50 of them. -/
theorem services_search_ranked (pg : Postgres) (req : Request)
    (hvalid : searchValidators req.query = []) :
    ∃ rows ordered : List ServiceRow,
      (servicesSearch pg.db req).outcome = Outcome.json 200 (Body.services rows.length rows) ∧
      ordered.Perm ((pg.matchingServices (queryPoint req.query) (searchRadius req.query)
        (categoryFilter req.query.category)).map (serviceRow pg (queryPoint req.query))) ∧
      ordered.Pairwise (fun a b => a.distance_meters ≤ b.distance_meters) ∧
      rows = ordered.take 50 ∧
      (∀ r ∈ rows, r.distance_meters ≤ (searchRadius req.query : Rat) ∧
        ∃ s ∈ pg.services, serviceRow pg (queryPoint req.query) s = r ∧ s.is_active = true ∧
          ST_DWithin pg s.location (queryPoint req.query) (searchRadius req.query) = true ∧
          ∀ c, req.query.category = some c → c.raw ≠ "" → s.category = c.raw) ∧
      rows.Pairwise (fun a b => a.distance_meters ≤ b.distance_meters) ∧
      rows.length ≤ 50 := by
  obtain ⟨hperm, hsorted, htake, hlen, _⟩ :=
    ranked_take pg.engine ServiceRow.distance_meters
      ((pg.matchingServices (queryPoint req.query) (searchRadius req.query)
        (categoryFilter req.query.category)).map (serviceRow pg (queryPoint req.query))) 50
  refine ⟨pg.servicesNear (parseFloat req.query.lat) (parseFloat req.query.lng)
      (searchRadius req.query) (categoryFilter req.query.category),
    pg.servicesOrdered (parseFloat req.query.lat) (parseFloat req.query.lng)
      (searchRadius req.query) (categoryFilter req.query.category),
    servicesSearch_valid pg req hvalid, hperm, hsorted, rfl, ?_, htake, hlen⟩
  intro r hr
  obtain ⟨s, hs, ha, hw, hc, rfl⟩ :=
    (mem_servicesOrdered pg _ _ _ _ r).mp (List.mem_of_mem_take hr)
  refine ⟨?_, s, hs, rfl, ha, hw, ?_⟩
  · simpa [ST_DWithin] using hw
  · intro c hcat hne
    apply hc
    simp [categoryFilter, hcat, hne]

theorem services_search_ranked_witness :
    searchValidators (latLngRequest sfLatParam sfLngParam).query = [] ∧
    (servicesPg.servicesNear sfPoint.lat sfPoint.lng 5000 none).map ServiceRow.id =
      ["s3", "s1", "s2"] ∧
    ∃ rows ordered : List ServiceRow,
      (servicesSearch servicesPg.db (latLngRequest sfLatParam sfLngParam)).outcome =
        Outcome.json 200 (Body.services rows.length rows) ∧
      ordered.Perm ((servicesPg.matchingServices sfPoint 5000 none).map
        (serviceRow servicesPg sfPoint)) ∧
      ordered.Pairwise (fun a b => a.distance_meters ≤ b.distance_meters) ∧
      rows = ordered.take 50 ∧
      (∀ r ∈ rows, r.distance_meters ≤ ((5000 : Int) : Rat) ∧
        ∃ s ∈ servicesPg.services, serviceRow servicesPg sfPoint s = r ∧ s.is_active = true ∧
          ST_DWithin servicesPg s.location sfPoint 5000 = true ∧
          ∀ c, (latLngRequest sfLatParam sfLngParam).query.category = some c → c.raw ≠ "" →
            s.category = c.raw) ∧
      rows.Pairwise (fun a b => a.distance_meters ≤ b.distance_meters) ∧
      rows.length ≤ 50 :=
  ⟨by decide, by decide,
    services_search_ranked servicesPg (latLngRequest sfLatParam sfLngParam) (by decide)⟩

/-! ## Rows at equal distance -/

/-- Whatever the engines do with rows of equal key, the keys of the first `n`
rows come out the same. -/
theorem ranked_keys_unique {α : Type} (e₁ e₂ : SortEngine) (key : α → Rat) (l : List α)
    (n : Nat) :
    ((e₁.sort (fun a b => decide (key a ≤ key b)) l).take n).map key =
      ((e₂.sort (fun a b => decide (key a ≤ key b)) l).take n).map key := by
  obtain ⟨hp₁, hs₁, _⟩ := ranked_take e₁ key l n
  obtain ⟨hp₂, hs₂, _⟩ := ranked_take e₂ key l n
  rw [List.map_take, List.map_take]
  congr 1
  refine List.Perm.eq_of_sorted (fun a b _ _ hab hba => le_antisymm hab hba)
    (List.pairwise_map.mpr hs₁) (List.pairwise_map.mpr hs₂) ?_
  exact (hp₁.map key).trans (hp₂.map key).symm

/-- C10, counterexample: the services table holds North Shelter before South
Shelter, both 1112 m from the query point; a database whose sort is ascending in
distance but not stable answers the search with South Shelter before North
Shelter. -/
theorem equal_distance_order_not_kept :
    tiesPg.services = [northShelter, southShelter, westKitchen] ∧
    (serviceRow tiesPg sfPoint northShelter).distance_meters =
      (serviceRow tiesPg sfPoint southShelter).distance_meters ∧
    (servicesSearch tiesPg.db (latLngRequest sfLatParam sfLngParam)).outcome =
      Outcome.json 200
        (Body.services 3
          [serviceRow tiesPg sfPoint westKitchen, serviceRow tiesPg sfPoint southShelter,
           serviceRow tiesPg sfPoint northShelter]) := by
  refine ⟨rfl, by decide, by decide⟩

/-- C10, as the code has it: the statements behind the services search and the
nearest emergency resources order rows by `distance_meters` alone. The result
is ascending in distance and its sequence of distances is the same whichever
way the database orders rows with equal keys; the order among rows at equal
distance is the database's choice. -/
theorem ranking_determined_up_to_ties (pg : Postgres) (e : SortEngine) (lat lng : Rat)
    (radius : Int) (category type : Option String) :
    ((pg.servicesNear lat lng radius category).map ServiceRow.distance_meters =
        (({ pg with engine := e } : Postgres).servicesNear lat lng radius category).map
          ServiceRow.distance_meters ∧
      (pg.servicesNear lat lng radius category).Pairwise
        (fun a b => a.distance_meters ≤ b.distance_meters)) ∧
    ((pg.emergencyNearest lat lng type).map EmergencyRow.distance_meters =
        (({ pg with engine := e } : Postgres).emergencyNearest lat lng type).map
          EmergencyRow.distance_meters ∧
      (pg.emergencyNearest lat lng type).Pairwise
        (fun a b => a.distance_meters ≤ b.distance_meters)) := by
  refine ⟨⟨?_, ?_⟩, ⟨?_, ?_⟩⟩
  · exact ranked_keys_unique pg.engine e ServiceRow.distance_meters _ 50
  · exact (ranked_take pg.engine ServiceRow.distance_meters _ 50).2.2.1
  · exact ranked_keys_unique pg.engine e EmergencyRow.distance_meters _ 10
  · exact (ranked_take pg.engine EmergencyRow.distance_meters _ 10).2.2.1

/-! ## The error handler -/

/-- C19: the object sent by the error handler has a `stack` key if and only if
`NODE_ENV` is 'development'; in every other environment the body is exactly the
object with the single key `error` holding the message, so that two errors
with the same name, message and status code get the same response whatever
their stacks. -/
theorem errorHandler_stack_only_in_development (env : Env) (err : JsError) :
    ("stack" ∈ (errorHandler env err).body.keys ↔ env.NODE_ENV = some "development") ∧
    (env.NODE_ENV ≠ some "development" →
      (errorHandler env err).body = ⟨errorMessage err, none⟩ ∧
      (errorHandler env err).body.keys = ["error"] ∧
      ∀ stack', errorHandler env { err with stack := stack' } = errorHandler env err) := by
  by_cases h : env.NODE_ENV = some "development"
  · simp [errorHandler, ErrorBody.keys, h]
  · simp [errorHandler, ErrorBody.keys, h, errorStatus, errorMessage, defaultStatus]

theorem errorHandler_stack_only_in_development_witness :
    ("stack" ∈ (errorHandler productionEnv connectionError).body.keys ↔
      productionEnv.NODE_ENV = some "development") ∧
    (productionEnv.NODE_ENV ≠ some "development" →
      (errorHandler productionEnv connectionError).body =
        ⟨errorMessage connectionError, none⟩ ∧
      (errorHandler productionEnv connectionError).body.keys = ["error"] ∧
      ∀ stack', errorHandler productionEnv { connectionError with stack := stack' } =
        errorHandler productionEnv connectionError) ∧
    productionEnv.NODE_ENV ≠ some "development" ∧
    errorHandler productionEnv connectionError =
      ⟨500, ⟨"connect ECONNREFUSED 127.0.0.1:5432", none⟩⟩ ∧
    (errorHandler developmentEnv connectionError).body.keys = ["error", "stack"] :=
  ⟨(errorHandler_stack_only_in_development productionEnv connectionError).1,
    (errorHandler_stack_only_in_development productionEnv connectionError).2,
    by decide, by decide, by decide⟩

/-- C20: the status and message of the error handler. A 'ValidationError' gets
400 'Validation Error', an 'UnauthorizedError' 401 'Unauthorized', a
'JsonWebTokenError' 401 'Invalid token', each whatever `err.statusCode` is.
Any other error gets `err.statusCode` when it is set (to a non-zero number, as
the test `err.statusCode || 500` reads it) and 500 otherwise, with `err.message`
when it is a non-empty string and 'Internal Server Error' otherwise. -/
theorem errorHandler_status_and_message (env : Env) (err : JsError) :
    (err.name = some "ValidationError" →
      (errorHandler env err).status = 400 ∧
      (errorHandler env err).body.error = "Validation Error") ∧
    (err.name = some "UnauthorizedError" →
      (errorHandler env err).status = 401 ∧
      (errorHandler env err).body.error = "Unauthorized") ∧
    (err.name = some "JsonWebTokenError" →
      (errorHandler env err).status = 401 ∧
      (errorHandler env err).body.error = "Invalid token") ∧
    (err.name ≠ some "ValidationError" → err.name ≠ some "UnauthorizedError" →
      err.name ≠ some "JsonWebTokenError" →
      (∀ n, err.statusCode = some n → n ≠ 0 → (errorHandler env err).status = n) ∧
      (err.statusCode = none ∨ err.statusCode = some 0 →
        (errorHandler env err).status = 500) ∧
      (∀ s, err.message = some s → s ≠ "" → (errorHandler env err).body.error = s) ∧
      (err.message = none ∨ err.message = some "" →
        (errorHandler env err).body.error = "Internal Server Error")) := by
  have hbody : (errorHandler env err).body.error = errorMessage err := by
    unfold errorHandler
    split <;> rfl
  have hstatus : (errorHandler env err).status = errorStatus err := rfl
  rw [hbody, hstatus]
  refine ⟨?_, ?_, ?_, ?_⟩
  · intro h
    simp [errorStatus, errorMessage, h]
  · intro h
    simp [errorStatus, errorMessage, h]
  · intro h
    simp [errorStatus, errorMessage, h]
  · intro h1 h2 h3
    simp only [errorStatus, errorMessage, h1, h2, h3, if_false, defaultStatus, orElse]
    refine ⟨?_, ?_, ?_, ?_⟩
    · intro n hn hz
      simp [hn, hz]
    · rintro (h | h) <;> simp [h]
    · intro s hs hne
      simp [hs, hne]
    · rintro (h | h) <;> simp [h]

theorem errorHandler_status_and_message_witness :
    ((errorHandler productionEnv
        ⟨some "ValidationError", some "lat is required", some 422, none⟩).status = 400 ∧
      (errorHandler productionEnv
        ⟨some "ValidationError", some "lat is required", some 422, none⟩).body.error =
        "Validation Error") ∧
    (errorHandler productionEnv ⟨some "UnauthorizedError", some "No token", none, none⟩
      = ⟨401, ⟨"Unauthorized", none⟩⟩) ∧
    (errorHandler productionEnv ⟨some "JsonWebTokenError", some "jwt malformed", some 500, none⟩
      = ⟨401, ⟨"Invalid token", none⟩⟩) ∧
    (errorHandler productionEnv payloadTooLarge).status = 413 ∧
    (errorHandler productionEnv payloadTooLarge).body.error = "request entity too large" ∧
    (errorHandler productionEnv connectionError).status = 500 ∧
    (errorHandler productionEnv ⟨some "Error", some "", none, none⟩).body.error =
      "Internal Server Error" :=
  ⟨(errorHandler_status_and_message productionEnv
      ⟨some "ValidationError", some "lat is required", some 422, none⟩).1 rfl,
    by decide, by decide,
    ((errorHandler_status_and_message productionEnv payloadTooLarge).2.2.2
      (by decide) (by decide) (by decide)).1 413 rfl (by decide),
    ((errorHandler_status_and_message productionEnv payloadTooLarge).2.2.2
      (by decide) (by decide) (by decide)).2.2.1 _ rfl (by decide),
    ((errorHandler_status_and_message productionEnv connectionError).2.2.2
      (by decide) (by decide) (by decide)).2.1 (Or.inl rfl),
    ((errorHandler_status_and_message productionEnv
      ⟨some "Error", some "", none, none⟩).2.2.2
      (by decide) (by decide) (by decide)).2.2.2 (Or.inr rfl)⟩

/-! ## Anonymous accounts -/

/-- When signing throws (no secret configured, say) the error is handed on and
no account id is sent. -/
theorem authAnonymous_sign_throws (jwt : Jwt) (env : Env) (userId : String)
    (rest : List String) (e : String)
    (hsign : jwt.sign ⟨userId, true⟩ env.JWT_SECRET (orElse env.JWT_EXPIRES_IN "30d") =
      Except.error e) :
    authAnonymous (Except.ok (userId :: rest)) jwt env = Outcome.nextError e := by
  simp [authAnonymous, generateToken, hsign]

/-- C18: when the insert returns the new user's id and `jwt.sign` yields a
token, `POST /auth/anonymous` answers 201 with `anonymous_id` equal to that id
and with `access_token` equal to the token that `jwt.sign` made from the
payload with exactly that `userId` and `isAnonymous` true, under the
configured secret. -/
theorem authAnonymous_created (jwt : Jwt) (env : Env) (userId : String)
    (rest : List String) (token : String)
    (hsign : jwt.sign ⟨userId, true⟩ env.JWT_SECRET (orElse env.JWT_EXPIRES_IN "30d") =
      Except.ok token) :
    authAnonymous (Except.ok (userId :: rest)) jwt env =
      Outcome.json 201 (Body.anonymousCreated userId token 2592000) := by
  simp [authAnonymous, generateToken, hsign]

theorem authAnonymous_created_witness :
    authAnonymous (Except.ok ["u-42"]) sampleJwt productionEnv =
      Outcome.json 201 (Body.anonymousCreated "u-42" "u-42.anonymous.s3cret.30d" 2592000) :=
  authAnonymous_created sampleJwt productionEnv "u-42" [] "u-42.anonymous.s3cret.30d" rfl

/-! ## What the legality check answers -/

/-- The legality check issues one statement, answers from the first row it
gets back, and no object it sends has a key for alerts. -/
theorem parkingCheck_shape (db : Db) (now : Int) (req : Request)
    (hvalid : checkValidators req.query = []) :
    (parkingCheck db now req).queries =
      [Sql.selectCheckParkingLegality (parseFloat req.query.lat) (parseFloat req.query.lng)] ∧
    (db.checkParkingLegality (parseFloat req.query.lat) (parseFloat req.query.lng) =
        Except.ok [] →
      (parkingCheck db now req).outcome =
        Outcome.json 200 (Body.noParkingInformation none "unknown"
          "No parking information available for this location")) ∧
    (∀ zone rest,
      db.checkParkingLegality (parseFloat req.query.lat) (parseFloat req.query.lng) =
        Except.ok (zone :: rest) →
      (parkingCheck db now req).outcome =
        Outcome.json 200 (Body.legality zone.is_legal
          (if zone.is_legal = some true then "safe" else "restricted")
          zone.zone_type zone.restrictions zone.time_limit now)) ∧
    (∀ e,
      db.checkParkingLegality (parseFloat req.query.lat) (parseFloat req.query.lng) =
        Except.error e →
      (parkingCheck db now req).outcome = Outcome.nextError e) := by
  simp only [parkingCheck, hvalid, List.isEmpty_nil, Bool.not_true, Bool.false_eq_true,
    if_false]
  refine ⟨?_, ?_, ?_, ?_⟩
  · split <;> rfl
  · intro h
    simp [h]
  · intro zone rest h
    simp [h]
  · intro e h
    simp [h]

/-- C11, counterexample: with an unexpired enforcement alert at the query point
itself, the legality check answers `is_legal` null ('unknown') when the lookup
finds no zone and `is_legal` true ('safe') when it finds a legal zone, and in
neither answer is there a key holding alerts; the alert is among those the
alerts listing returns. -/
theorem enforcement_alert_not_in_legality_check :
    enforcementSighting ∈ enforcementPg.activeAlerts sfPoint 100 ∧
    enforcementSighting.alert_type = "enforcement" ∧
    parkingCheck enforcementPg.db 1710063000000 (latLngRequest sfLatParam sfLngParam) =
      ⟨Outcome.json 200 (Body.noParkingInformation none "unknown"
          "No parking information available for this location"),
        [Sql.selectCheckParkingLegality sfPoint.lat sfPoint.lng]⟩ ∧
    parkingCheck enforcementLegalPg.db 1710063000000 (latLngRequest sfLatParam sfLngParam) =
      ⟨Outcome.json 200 (Body.legality (some true) "safe" "legal" "max_days 3" none
          1710063000000),
        [Sql.selectCheckParkingLegality sfPoint.lat sfPoint.lng]⟩ ∧
    (Body.noParkingInformation none "unknown"
        "No parking information available for this location").keys =
      ["is_legal", "status", "message"] ∧
    (Body.legality (some true) "safe" "legal" "max_days 3" none 1710063000000).keys =
      ["is_legal", "status", "zone_type", "restrictions", "time_limit_minutes", "checked_at"] ∧
    (parkingAlerts enforcementPg.db (latLngRequest sfLatParam sfLngParam)).outcome =
      Outcome.json 200 (Body.alerts 1 [alertRow enforcementPg sfPoint enforcementSighting]) := by
  refine ⟨by decide, rfl, by decide, by decide, rfl, rfl, by decide⟩

/-- C11, as the code has it: the legality check applies no alert overlay. For a
valid request it issues the single statement `check_parking_legality(lat, lng,
now)` and answers from the first row returned: `is_legal` null with status
'unknown' when there is no row, otherwise that row's `is_legal`, zone type,
restrictions and time limit; no answer has a key for active alerts, whatever
alerts exist. -/
theorem legality_check_without_alert_overlay (db : Db) (now : Int) (req : Request)
    (hvalid : checkValidators req.query = []) :
    (parkingCheck db now req).queries =
      [Sql.selectCheckParkingLegality (parseFloat req.query.lat) (parseFloat req.query.lng)] ∧
    ((parkingCheck db now req).outcome =
        Outcome.json 200 (Body.noParkingInformation none "unknown"
          "No parking information available for this location") ∨
      (∃ zone, (parkingCheck db now req).outcome =
        Outcome.json 200 (Body.legality zone.is_legal
          (if zone.is_legal = some true then "safe" else "restricted")
          zone.zone_type zone.restrictions zone.time_limit now) ∧
        ∃ rest, db.checkParkingLegality (parseFloat req.query.lat)
          (parseFloat req.query.lng) = Except.ok (zone :: rest)) ∨
      ∃ e, (parkingCheck db now req).outcome = Outcome.nextError e) ∧
    ∀ status body, (parkingCheck db now req).outcome = Outcome.json status body →
      "activeAlerts" ∉ body.keys ∧ "active_alerts" ∉ body.keys ∧ "alerts" ∉ body.keys := by
  obtain ⟨hq, hnil, hcons, herr⟩ := parkingCheck_shape db now req hvalid
  have hcases : (parkingCheck db now req).outcome =
        Outcome.json 200 (Body.noParkingInformation none "unknown"
          "No parking information available for this location") ∨
      (∃ zone, (parkingCheck db now req).outcome =
        Outcome.json 200 (Body.legality zone.is_legal
          (if zone.is_legal = some true then "safe" else "restricted")
          zone.zone_type zone.restrictions zone.time_limit now) ∧
        ∃ rest, db.checkParkingLegality (parseFloat req.query.lat)
          (parseFloat req.query.lng) = Except.ok (zone :: rest)) ∨
      ∃ e, (parkingCheck db now req).outcome = Outcome.nextError e := by
    cases h : db.checkParkingLegality (parseFloat req.query.lat) (parseFloat req.query.lng) with
    | error e => exact Or.inr (Or.inr ⟨e, herr e h⟩)
    | ok rows =>
      cases rows with
      | nil => exact Or.inl (hnil h)
      | cons zone rest => exact Or.inr (Or.inl ⟨zone, hcons zone rest h, rest, rfl⟩)
  refine ⟨hq, hcases, ?_⟩
  intro status body hbody
  rcases hcases with h | ⟨zone, h, _⟩ | ⟨e, h⟩
  · rw [h] at hbody
    injection hbody with _ hb
    subst hb
    decide
  · rw [h] at hbody
    injection hbody with _ hb
    subst hb
    simp [Body.keys]
  · rw [h] at hbody
    cases hbody

theorem legality_check_without_alert_overlay_witness :
    checkValidators (latLngRequest sfLatParam sfLngParam).query = [] ∧
    (parkingCheck enforcementLegalPg.db 1710063000000
        (latLngRequest sfLatParam sfLngParam)).queries =
      [Sql.selectCheckParkingLegality sfPoint.lat sfPoint.lng] ∧
    ∀ status body,
      (parkingCheck enforcementLegalPg.db 1710063000000
        (latLngRequest sfLatParam sfLngParam)).outcome = Outcome.json status body →
      "activeAlerts" ∉ body.keys ∧ "active_alerts" ∉ body.keys ∧ "alerts" ∉ body.keys :=
  ⟨by decide,
    (legality_check_without_alert_overlay enforcementLegalPg.db 1710063000000
      (latLngRequest sfLatParam sfLngParam) (by decide)).1,
    (legality_check_without_alert_overlay enforcementLegalPg.db 1710063000000
      (latLngRequest sfLatParam sfLngParam) (by decide)).2.2⟩

/-- C13, at the failing input: when the lookup returns no row the answer is the
object with the keys `is_legal`, `status` and `message` only, without
`checked_at`; the answer built from a zone row, two statements further down in
the same handler, carries `checked_at`. -/
theorem unknown_verdict_without_checked_at :
    parkingCheck emptyPg.db 1710063000000 (latLngRequest sfLatParam sfLngParam) =
      ⟨Outcome.json 200 (Body.noParkingInformation none "unknown"
          "No parking information available for this location"),
        [Sql.selectCheckParkingLegality sfPoint.lat sfPoint.lng]⟩ ∧
    "checked_at" ∉ (Body.noParkingInformation none "unknown"
      "No parking information available for this location").keys ∧
    (Body.noParkingInformation none "unknown"
      "No parking information available for this location").checkedAt = none ∧
    parkingCheck enforcementLegalPg.db 1710063000000 (latLngRequest sfLatParam sfLngParam) =
      ⟨Outcome.json 200 (Body.legality (some true) "safe" "legal" "max_days 3" none
          1710063000000),
        [Sql.selectCheckParkingLegality sfPoint.lat sfPoint.lng]⟩ ∧
    (Body.legality (some true) "safe" "legal" "max_days 3" none 1710063000000).checkedAt =
      some 1710063000000 := by
  refine ⟨by decide, by decide, rfl, by decide, rfl⟩

/-! ## The distance of the specification -/

/-- C14: the haversine distance of the specification is symmetric and is zero
from a point to itself, for every floating-point library whose sine is odd and
whose square root and arcsine map 0 to 0; and it is the `distance_meters` that
ranks the rows when the database measures with it. -/
theorem haversine_symmetric_and_zero (m : Core.FloatMath)
    (hodd : ∀ x, m.sin (-x) = -m.sin x) (hsqrt : m.sqrt 0 = 0) (hasin : m.asin 0 = 0)
    (a b : Point) :
    Core.haversineDistanceMeters m a b = Core.haversineDistanceMeters m b a ∧
    Core.haversineDistanceMeters m a a = 0 ∧
    ∀ (pg : Postgres) (s : Service),
      (serviceRow { pg with ST_Distance := Core.haversineDistanceMeters m } a s).distance_meters =
        Core.haversineDistanceMeters m a s.location := by
  have hsq : ∀ x, m.sin (-x) ^ 2 = m.sin x ^ 2 := by
    intro x
    rw [hodd x]
    ring
  have hzero : m.sin 0 = 0 := by
    have h := hodd 0
    rw [neg_zero] at h
    linarith
  have hflip : ∀ x y : Rat, Core.toRadians m (x - y) / 2 = -(Core.toRadians m (y - x) / 2) := by
    intro x y
    unfold Core.toRadians
    ring
  refine ⟨?_, ?_, ?_⟩
  · unfold Core.haversineDistanceMeters
    simp only []
    rw [hflip b.lat a.lat, hflip b.lng a.lng, hsq, hsq,
      mul_comm (m.cos (Core.toRadians m a.lat)) (m.cos (Core.toRadians m b.lat))]
  · unfold Core.haversineDistanceMeters
    simp only [sub_self]
    have h0 : Core.toRadians m 0 / 2 = 0 := by
      unfold Core.toRadians
      ring
    rw [h0, hzero]
    simp [hsqrt, hasin]
  · intro pg s
    have hsym : ∀ x y, Core.haversineDistanceMeters m x y = Core.haversineDistanceMeters m y x := by
      intro x y
      unfold Core.haversineDistanceMeters
      simp only []
      rw [hflip y.lat x.lat, hflip y.lng x.lng, hsq, hsq,
        mul_comm (m.cos (Core.toRadians m x.lat)) (m.cos (Core.toRadians m y.lat))]
    exact hsym s.location a

theorem haversine_symmetric_and_zero_witness :
    (∀ x, sampleMath.sin (-x) = -sampleMath.sin x) ∧ sampleMath.sqrt 0 = 0 ∧
    sampleMath.asin 0 = 0 ∧
    Core.haversineDistanceMeters sampleMath sfPoint northPoint =
      Core.haversineDistanceMeters sampleMath northPoint sfPoint ∧
    Core.haversineDistanceMeters sampleMath sfPoint sfPoint = 0 :=
  have hodd : ∀ x, sampleMath.sin (-x) = -sampleMath.sin x := by
    intro x
    simp only [sampleMath]
    ring
  have hsqrt : sampleMath.sqrt 0 = 0 := by simp [sampleMath]
  have hasin : sampleMath.asin 0 = 0 := by simp [sampleMath]
  ⟨hodd, hsqrt, hasin,
    (haversine_symmetric_and_zero sampleMath hodd hsqrt hasin sfPoint northPoint).1,
    (haversine_symmetric_and_zero sampleMath hodd hsqrt hasin sfPoint northPoint).2.1⟩

/-! ## The seeded parking zones -/

/-- C16: the geometry of every seeded parking zone is a well-formed polygon: it
reads as one ring of at least 4 vertices whose first vertex equals its last,
with every latitude in [-90, 90] and every longitude in [-180, 180]. -/
theorem seeded_geometries_well_formed :
    ∀ z ∈ sampleParkingZones, ∃ ring, ST_GeomFromText z.geometry = some ring ∧
      4 ≤ (ring.map vertexPoint).length ∧
      (ring.map vertexPoint).head? = (ring.map vertexPoint).getLast? ∧
      (∀ p ∈ ring.map vertexPoint, -90 ≤ p.lat ∧ p.lat ≤ 90 ∧ -180 ≤ p.lng ∧ p.lng ≤ 180) ∧
      Core.wellFormedRing (ring.map vertexPoint) = true := by
  intro z hz
  simp only [sampleParkingZones, List.mem_cons, List.mem_singleton, List.not_mem_nil,
    or_false] at hz
  rcases hz with rfl | rfl
  · refine ⟨[(⟨-1223875, 4⟩, ⟨377280, 4⟩), (⟨-1223850, 4⟩, ⟨377280, 4⟩),
      (⟨-1223850, 4⟩, ⟨377300, 4⟩), (⟨-1223875, 4⟩, ⟨377300, 4⟩),
      (⟨-1223875, 4⟩, ⟨377280, 4⟩)], by decide, by decide, rfl, ?_, ?_⟩
    · intro p hp
      simp only [List.map, List.mem_cons, List.mem_singleton, List.not_mem_nil, or_false,
        vertexPoint, Decimal.toRat] at hp
      rcases hp with rfl | rfl | rfl | rfl | rfl <;> norm_num
    · simp [Core.wellFormedRing]
  · refine ⟨[(⟨-1224200, 4⟩, ⟨377750, 4⟩), (⟨-1224180, 4⟩, ⟨377750, 4⟩),
      (⟨-1224180, 4⟩, ⟨377770, 4⟩), (⟨-1224200, 4⟩, ⟨377770, 4⟩),
      (⟨-1224200, 4⟩, ⟨377750, 4⟩)], by decide, by decide, rfl, ?_, ?_⟩
    · intro p hp
      simp only [List.map, List.mem_cons, List.mem_singleton, List.not_mem_nil, or_false,
        vertexPoint, Decimal.toRat] at hp
      rcases hp with rfl | rfl | rfl | rfl | rfl <;> norm_num
    · simp [Core.wellFormedRing]

/-- C15: the seeded street-cleaning window, 'tuesday' '8:00-10:00', read as a
day-scoped rule, is active exactly on a Tuesday from 08:00:00 inclusive to
10:00:00 exclusive: it is active at 08:00:00.000 and at 09:59:59.999, not
active at 10:00:00.000, and never active on another day of the week. -/
theorem seeded_street_cleaning_half_open :
    (sampleParkingZones.filterMap (fun z => z.street_cleaning)).map Core.streetCleaningRule =
      [some (Core.TemporalRule.streetCleaning Core.DayOfWeek.tuesday 28800000 36000000)] ∧
    (∀ t : Core.Instant,
      Core.ruleActive
          (some (Core.TemporalRule.streetCleaning Core.DayOfWeek.tuesday 28800000 36000000)) t =
          true ↔
        t.dayOfWeek = Core.DayOfWeek.tuesday ∧ 28800000 ≤ t.timeOfDay ∧
          t.timeOfDay < 36000000) ∧
    Core.instantAt pacificSpring2024 1710255600000 =
      ⟨1710255600000, 19794, Core.DayOfWeek.tuesday, 28800000⟩ ∧
    Core.ruleActive
      (some (Core.TemporalRule.streetCleaning Core.DayOfWeek.tuesday 28800000 36000000))
      (Core.instantAt pacificSpring2024 1710255600000) = true ∧
    Core.ruleActive
      (some (Core.TemporalRule.streetCleaning Core.DayOfWeek.tuesday 28800000 36000000))
      ⟨1710262799999, 19794, Core.DayOfWeek.tuesday, 35999999⟩ = true ∧
    Core.instantAt pacificSpring2024 1710262800000 =
      ⟨1710262800000, 19794, Core.DayOfWeek.tuesday, 36000000⟩ ∧
    Core.ruleActive
      (some (Core.TemporalRule.streetCleaning Core.DayOfWeek.tuesday 28800000 36000000))
      (Core.instantAt pacificSpring2024 1710262800000) = false := by
  refine ⟨by decide, ?_, by decide, by decide, by decide, by decide, by decide⟩
  intro t
  simp [Core.ruleActive, and_assoc]

/-! ## The severity order of the resolver -/

/-- A required float field that passed its check holds a number within the
bounds, and `parseFloat` yields that number. -/
theorem required_isFloat_ok (path msg : String) (min max : Rat) (v : Option Param)
    (h : required path msg (isFloat min max) v = []) :
    min ≤ parseFloat v ∧ parseFloat v ≤ max := by
  cases v with
  | none => simp [required] at h
  | some p =>
    cases hp : p.asFloat with
    | none => simp [required, isFloat, hp] at h
    | some q =>
      by_cases hq : min ≤ q ∧ q ≤ max
      · simpa [parseFloat, hp] using hq
      · exfalso
        have hf : isFloat min max p = false := by
          simp only [isFloat, hp]
          by_cases h1 : min ≤ q
          · have h2 : ¬ q ≤ max := fun h2 => hq ⟨h1, h2⟩
            simp [h1, h2]
          · simp [h1]
        simp [required, hf] at h

/-- The point of a request that passed the check validators is a valid
coordinate. -/
theorem valid_query_point (req : Request) (hvalid : checkValidators req.query = []) :
    Core.validCoordinate (queryPoint req.query) = true := by
  unfold checkValidators at hvalid
  obtain ⟨h1, h2⟩ := List.append_eq_nil.mp hvalid
  obtain ⟨a1, a2⟩ := required_isFloat_ok _ _ _ _ _ h1
  obtain ⟨b1, b2⟩ := required_isFloat_ok _ _ _ _ _ h2
  simp [Core.validCoordinate, queryPoint, ST_MakePoint, a1, a2, b1, b2]

/-- C12: when the zones on file are a 'prohibited' zone and a 'time_limited'
zone, in either order, both in force, both containing the point and both with
an active temporal rule, the resolver's verdict is `isLegal = false` with the
zone type, restrictions and time limit of the prohibited zone, and the check
handler answers `is_legal` false, status 'restricted', with that zone type and
those restrictions. -/
theorem prohibited_outranks_time_limited (pg : Postgres) (tz : TimeZone) (now : Int)
    (req : Request) (p t : Core.ParkingZone) (zones : List Core.ParkingZone)
    (hvalid : checkValidators req.query = [])
    (hzones : zones = [p, t] ∨ zones = [t, p])
    (hp : p.zoneType = Core.ZoneType.prohibited)
    (ht : t.zoneType = Core.ZoneType.time_limited)
    (hpf : Core.inForce (Core.instantAt tz pg.CURRENT_TIMESTAMP).date p = true)
    (htf : Core.inForce (Core.instantAt tz pg.CURRENT_TIMESTAMP).date t = true)
    (hpc : Core.pointInPolygon (queryPoint req.query) p.geometry = Except.ok true)
    (htc : Core.pointInPolygon (queryPoint req.query) t.geometry = Except.ok true)
    (hpa : Core.ruleActive p.rule (Core.instantAt tz pg.CURRENT_TIMESTAMP) = true)
    (hta : Core.ruleActive t.rule (Core.instantAt tz pg.CURRENT_TIMESTAMP) = true) :
    Core.resolve (queryPoint req.query) (Core.instantAt tz pg.CURRENT_TIMESTAMP) zones =
      Except.ok ⟨some false, some Core.ZoneType.prohibited, some p.restrictions,
        p.timeLimitMinutes, [], pg.CURRENT_TIMESTAMP⟩ ∧
    (parkingCheck (resolverDb pg zones tz) now req).outcome =
      Outcome.json 200 (Body.legality (some false) "restricted" "prohibited" p.restrictions
        (p.timeLimitMinutes.map (fun n => (n : Int))) now) := by
  have hcoord := valid_query_point req hvalid
  have hres : Core.resolve (queryPoint req.query) (Core.instantAt tz pg.CURRENT_TIMESTAMP)
      zones = Except.ok ⟨some false, some Core.ZoneType.prohibited, some p.restrictions,
        p.timeLimitMinutes, [], pg.CURRENT_TIMESTAMP⟩ := by
    have hts : (Core.instantAt tz pg.CURRENT_TIMESTAMP).timestamp = pg.CURRENT_TIMESTAMP := rfl
    rcases hzones with rfl | rfl
    · simp [Core.resolve, hcoord, List.filter, hpf, htf, Core.containing, hpc, htc,
        Core.contributes, hpa, hta, Core.verdictOf, hp, ht, Core.mostRestrictive,
        Core.moreRestrictive, Core.severity, hts]
    · simp [Core.resolve, hcoord, List.filter, hpf, htf, Core.containing, hpc, htc,
        Core.contributes, hpa, hta, Core.verdictOf, hp, ht, Core.mostRestrictive,
        Core.moreRestrictive, Core.severity, hts]
  refine ⟨hres, ?_⟩
  have hrows : (resolverDb pg zones tz).checkParkingLegality (parseFloat req.query.lat)
      (parseFloat req.query.lng) =
      Except.ok [⟨some false, "prohibited", p.restrictions,
        p.timeLimitMinutes.map (fun n => (n : Int))⟩] := by
    have hq : ST_MakePoint (parseFloat req.query.lng) (parseFloat req.query.lat) =
        queryPoint req.query := rfl
    simp only [resolverDb, Core.checkParkingLegality, hq, hres]
    rfl
  have h := (parkingCheck_shape (resolverDb pg zones tz) now req hvalid).2.2.1 _ _ hrows
  simpa using h

theorem prohibited_outranks_time_limited_witness :
    Core.resolve ⟨37, -122⟩ (Core.instantAt pacificSpring2024 1710237600000)
        [timeLimitedZone, prohibitedZone] =
      Except.ok ⟨some false, some Core.ZoneType.prohibited, some "no parking", none, [],
        1710237600000⟩ ∧
    (parkingCheck (resolverDb tuesdayPg [timeLimitedZone, prohibitedZone] pacificSpring2024)
        1710237600000 (latLngRequest sfLat sfLng)).outcome =
      Outcome.json 200 (Body.legality (some false) "restricted" "prohibited" "no parking" none
        1710237600000) :=
  have hin : Core.pointInPolygon ⟨37, -122⟩ squareRing = Except.ok true := by
    simp only [Core.pointInPolygon, Core.wellFormedRing, squareRing, Core.crossings,
      Core.edgeCrosses]
    norm_num
  prohibited_outranks_time_limited tuesdayPg pacificSpring2024 1710237600000
    (latLngRequest sfLat sfLng) prohibitedZone timeLimitedZone
    [timeLimitedZone, prohibitedZone] (by decide) (Or.inr rfl) rfl rfl (by decide) (by decide)
    hin hin (by decide) (by decide)

/-! ## Requests that match no route -/

/-- A router none of whose routes matches lets the request fall through. -/
theorem dispatch_none {H β S : Type} (run : H → List (String × String) → Handled β S)
    (routes : List (Route H)) (m : Method) (path : List String)
    (h : ∀ route ∈ routes, handlesMethod route.method m = false ∨
      matchPath route.path path = none) :
    dispatch run routes m path = none := by
  induction routes with
  | nil => rfl
  | cons r rs ih =>
    rw [dispatch_cons_skip run r rs m path (h r (List.mem_cons_self r rs))]
    exact ih (fun route hr => h route (List.mem_cons_of_mem r hr))

/-- Routes match as Express matches them by default: `GET /HEALTH`,
`GET /health/` and `GET /API/V1/emergency/hotlines/` reach their routes, so they
are not among the requests that match no route, while `GET /health//` and
`GET /healthz` match none. -/
theorem routes_match_any_case_and_trailing_slash :
    app productionEnv passAll idleRun ⟨Method.GET, ["HEALTH"]⟩ =
      AppAnswer.routed AppRoute.health ⟨Outcome.nextError "unreachable", []⟩ ∧
    app productionEnv passAll idleRun ⟨Method.GET, ["health", ""]⟩ =
      AppAnswer.routed AppRoute.health ⟨Outcome.nextError "unreachable", []⟩ ∧
    app productionEnv passAll idleRun ⟨Method.HEAD, ["Health"]⟩ =
      AppAnswer.routed AppRoute.health ⟨Outcome.nextError "unreachable", []⟩ ∧
    app productionEnv passAll idleRun
        ⟨Method.GET, ["API", "V1", "emergency", "hotlines", ""]⟩ =
      AppAnswer.routed (AppRoute.emergency EmergencyRoute.hotlines)
        ⟨Outcome.nextError "unreachable", []⟩ ∧
    app productionEnv passAll idleRun ⟨Method.GET, ["api", "v1", "services", "ABC", ""]⟩ =
      AppAnswer.routed (AppRoute.services ServicesRoute.detail)
        ⟨Outcome.nextError "unreachable", []⟩ ∧
    matchPath [PathSeg.param "id"] ["ABC", ""] = some [("id", "ABC")] ∧
    ¬ NoRouteMatches productionEnv ⟨Method.GET, ["HEALTH"]⟩ ∧
    ¬ NoRouteMatches productionEnv ⟨Method.GET, ["health", ""]⟩ ∧
    NoRouteMatches productionEnv ⟨Method.GET, ["health", "", ""]⟩ ∧
    NoRouteMatches productionEnv ⟨Method.GET, ["healthz"]⟩ ∧
    NoRouteMatches productionEnv ⟨Method.POST, ["health"]⟩ := by
  unfold NoRouteMatches
  refine ⟨by decide, by decide, by decide, by decide, by decide, by decide, by decide,
    by decide, by decide, by decide, by decide⟩

/-- C17, counterexample: an OPTIONS request for `/api/v1/unknown` matches no
route, and it is `cors()` that answers it, with status 204 and no body, before
the routes and the 404 handler are reached. -/
theorem options_request_ended_by_cors :
    NoRouteMatches productionEnv ⟨Method.OPTIONS, ["api", "v1", "unknown"]⟩ ∧
    app productionEnv passAll idleRun ⟨Method.OPTIONS, ["api", "v1", "unknown"]⟩ =
      AppAnswer.ended 204 ∧
    app productionEnv passAll idleRun ⟨Method.OPTIONS, ["api", "v1", "unknown"]⟩ ≠
      AppAnswer.json 404 "Not Found" "The requested resource does not exist" := by
  refine ⟨?_, rfl, by decide⟩
  unfold NoRouteMatches
  decide

/-- C17, as the code has it: with an API version that is a plain path segment
(the default `v1`, say), every request other than an OPTIONS request that the
middleware in front of the routes hands on, and whose method and path match
neither `/health` nor any route of the mounted auth, services, parking,
emergency and housing routers (matching as Express does by default: without
regard to the case of the letters, with an optional trailing slash, a GET route
taking HEAD as well), is answered with status 404 and the body whose `error` is
'Not Found'. -/
theorem unmatched_request_not_found (env : Env) (middleware : AppRequest → MiddlewareVerdict)
    (run : AppRequest → AppRoute → List (String × String) → Result) (r : AppRequest)
    (_hversion : PlainVersion env)
    (hmethod : r.method ≠ Method.OPTIONS) (hpass : middleware r = MiddlewareVerdict.pass)
    (hno : NoRouteMatches env r) :
    app env middleware run r =
      AppAnswer.json 404 "Not Found" "The requested resource does not exist" := by
  unfold app
  rw [if_neg hmethod, hpass, dispatch_none (run r) (appRoutes env) r.method r.path hno]

theorem unmatched_request_not_found_witness :
    PlainVersion productionEnv ∧
    NoRouteMatches productionEnv ⟨Method.GET, ["api", "v1", "unknown"]⟩ ∧
    app productionEnv passAll idleRun ⟨Method.GET, ["api", "v1", "unknown"]⟩ =
      AppAnswer.json 404 "Not Found" "The requested resource does not exist" :=
  have hno : NoRouteMatches productionEnv ⟨Method.GET, ["api", "v1", "unknown"]⟩ := by
    unfold NoRouteMatches
    decide
  have hversion : PlainVersion productionEnv := by
    unfold PlainVersion
    decide
  ⟨hversion, hno, unmatched_request_not_found productionEnv passAll idleRun
    ⟨Method.GET, ["api", "v1", "unknown"]⟩ hversion (by decide) rfl hno⟩

theorem seeded_geometries_well_formed_witness :
    (sampleParkingZones.head?.map (fun z => z.zone_type)) = some "legal" ∧
    ∃ ring, ST_GeomFromText
        "POLYGON((-122.3875 37.7280, -122.3850 37.7280, -122.3850 37.7300, -122.3875 37.7300, -122.3875 37.7280))" =
        some ring ∧
      4 ≤ (ring.map vertexPoint).length ∧
      (ring.map vertexPoint).head? = (ring.map vertexPoint).getLast? ∧
      (∀ p ∈ ring.map vertexPoint, -90 ≤ p.lat ∧ p.lat ≤ 90 ∧ -180 ≤ p.lng ∧ p.lng ≤ 180) ∧
      Core.wellFormedRing (ring.map vertexPoint) = true :=
  ⟨rfl, seeded_geometries_well_formed _ (List.mem_cons_self _ _)⟩

/-! ## The lifetime reported for an anonymous token -/

/-- Without `JWT_EXPIRES_IN` (unset or empty) the tokens live 30 days, which
is the `expires_in` that the handler reports. -/
theorem issuedTokenLifetime_default (env : Env)
    (h : env.JWT_EXPIRES_IN = none ∨ env.JWT_EXPIRES_IN = some "") :
    issuedTokenLifetime env = some 2592000 := by
  rcases h with h | h <;> simp only [issuedTokenLifetime, h, orElse] <;> decide

/-- C21, at the failing input: with `JWT_EXPIRES_IN=7d` the handler still
answers `expires_in: 2592000` (30 * 24 * 60 * 60), while the access token of
the same response was signed with `expiresIn: '7d'` and lives 604800 seconds. -/
theorem expires_in_ignores_configured_lifetime :
    authAnonymous (Except.ok ["u-42"]) sampleJwt sevenDayEnv =
      Outcome.json 201 (Body.anonymousCreated "u-42" "u-42.anonymous.s3cret.7d" 2592000) ∧
    (2592000 : Nat) = 30 * 24 * 60 * 60 ∧
    issuedTokenLifetime sevenDayEnv = some 604800 ∧
    issuedTokenLifetime productionEnv = some 2592000 := by
  refine ⟨by decide, by decide, by decide, by decide⟩

/-! ## Graceful shutdown -/

/-- C22, at the failing input: in the scope of `server.js` the SIGTERM handler
throws `ReferenceError: server is not defined` at `server.close`, before
anything is closed and without exiting with code 0; had `app.listen` been
bound to `server`, it would close the server and exit with code 0. -/
theorem sigterm_handler_throws :
    sigtermHandler (serverModuleBindings ++ nodeGlobals) =
      ShutdownOutcome.threw "ReferenceError: server is not defined" ∧
    "server" ∉ serverModuleBindings ++ nodeGlobals ∧
    sigtermHandler ("server" :: (serverModuleBindings ++ nodeGlobals)) =
      ShutdownOutcome.closedAndExited 0 := by
  refine ⟨by decide, by decide, by decide⟩

/-! ## Token verification -/

/-- The token read from the header is missing or empty exactly when the header
is absent or its second part between blanks is missing or empty. -/
theorem bearerToken_falsy_iff (authHeader : Option String) :
    (bearerToken authHeader = none ∨ bearerToken authHeader = some "") ↔
      (authHeader = none ∨
        ∃ h, authHeader = some h ∧ (secondPart h = none ∨ secondPart h = some "")) := by
  cases authHeader with
  | none => simp [bearerToken]
  | some h =>
    by_cases hh : h = ""
    · subst hh
      have : secondPart "" = none := by decide
      simp [bearerToken, this]
    · simp [bearerToken, hh]

/-- C23: `POST /auth/verify` answers 401 'Token required' exactly when the
Authorization header is absent or has no second part between blanks (a second
part that is the empty string counts as none, as in `!token`); otherwise it
answers 403 with `valid` false when `jwt.verify` throws and 200 with `valid`
true and the `userId` of the decoded token when it returns; there is no other
outcome. -/
theorem authVerify_outcomes (jwt : Jwt) (env : Env) (authHeader : Option String) :
    (authVerify jwt env authHeader = Outcome.json 401 (Body.error "Token required") ↔
      (authHeader = none ∨
        ∃ h, authHeader = some h ∧ (secondPart h = none ∨ secondPart h = some ""))) ∧
    (∀ token, bearerToken authHeader = some token → token ≠ "" →
      (∀ decoded, jwt.verify token env.JWT_SECRET = Except.ok decoded →
        authVerify jwt env authHeader =
          Outcome.json 200 (Body.verified true decoded.userId)) ∧
      (∀ e, jwt.verify token env.JWT_SECRET = Except.error e →
        authVerify jwt env authHeader =
          Outcome.json 403 (Body.invalidToken false "Invalid token"))) ∧
    (authVerify jwt env authHeader = Outcome.json 401 (Body.error "Token required") ∨
      authVerify jwt env authHeader =
        Outcome.json 403 (Body.invalidToken false "Invalid token") ∨
      ∃ userId, authVerify jwt env authHeader =
        Outcome.json 200 (Body.verified true userId)) := by
  refine ⟨?_, ?_, ?_⟩
  · rw [← bearerToken_falsy_iff]
    unfold authVerify
    cases hb : bearerToken authHeader with
    | none => simp
    | some token =>
      by_cases ht : token = ""
      · simp [ht]
      · simp only [ht, if_false]
        cases jwt.verify token env.JWT_SECRET <;> simp [ht]
  · intro token hb ht
    unfold authVerify
    simp only [hb, ht, if_false]
    constructor
    · intro decoded hv
      simp [hv]
    · intro e hv
      simp [hv]
  · unfold authVerify
    cases bearerToken authHeader with
    | none => exact Or.inl rfl
    | some token =>
      by_cases ht : token = ""
      · simp [ht]
      · simp only [ht, if_false]
        cases jwt.verify token env.JWT_SECRET with
        | error e => exact Or.inr (Or.inl rfl)
        | ok decoded => exact Or.inr (Or.inr ⟨decoded.userId, rfl⟩)

theorem authVerify_outcomes_witness :
    authVerify checkingJwt productionEnv (some "Bearer good") =
      Outcome.json 200 (Body.verified true "u-42") ∧
    authVerify checkingJwt productionEnv (some "Bearer bad") =
      Outcome.json 403 (Body.invalidToken false "Invalid token") ∧
    (authVerify checkingJwt productionEnv (some "Bearer") =
        Outcome.json 401 (Body.error "Token required") ↔
      ((some "Bearer" : Option String) = none ∨
        ∃ h, some "Bearer" = some h ∧ (secondPart h = none ∨ secondPart h = some ""))) :=
  ⟨((authVerify_outcomes checkingJwt productionEnv (some "Bearer good")).2.1 "good"
      (by decide) (by decide)).1 ⟨"u-42", true⟩ rfl,
    ((authVerify_outcomes checkingJwt productionEnv (some "Bearer bad")).2.1 "bad"
      (by decide) (by decide)).2 "jwt malformed" rfl,
    (authVerify_outcomes checkingJwt productionEnv (some "Bearer")).1⟩

/-! ## The mobile store: fetching services -/

/-- C24: when the services request fails and a bundle with a list of services
is cached, `fetchServices` returns `success` true and `offline` true with
`data` equal to the services of the cached bundle, and the store's `services`
are that same list; when the request fails and nothing is cached, it returns
`success` false with the error message, sets `services` to the empty list and
records the message in `error`. -/
theorem fetchServices_when_request_fails (dev : Device) (s : StoreState) (message : String) :
    (∀ data bundle list, dev.getItem "offline_services" = Except.ok (some data) →
      data ≠ "" → dev.parseBundle data = Except.ok bundle → bundle.services = some list →
      (fetchServices dev (Except.error message) s).2 = ⟨true, some list, some true, none⟩ ∧
      (fetchServices dev (Except.error message) s).1.services = some list ∧
      (fetchServices dev (Except.error message) s).1.offlineData = some bundle) ∧
    (dev.getItem "offline_services" = Except.ok none →
      (fetchServices dev (Except.error message) s).2 = ⟨false, none, none, some message⟩ ∧
      (fetchServices dev (Except.error message) s).1.services = some [] ∧
      (fetchServices dev (Except.error message) s).1.error = some message) := by
  constructor
  · intro data bundle list hget hne hparse hlist
    simp [fetchServices, loadOfflineData, hget, hne, hparse, hlist]
  · intro hget
    simp [fetchServices, loadOfflineData, hget]

theorem fetchServices_when_request_fails_witness :
    ((fetchServices cachedDevice (Except.error "Network Error") initialStore).2 =
        ⟨true, some cachedServices, some true, none⟩ ∧
      (fetchServices cachedDevice (Except.error "Network Error") initialStore).1.services =
        some cachedServices ∧
      (fetchServices cachedDevice (Except.error "Network Error") initialStore).1.offlineData =
        some cachedBundle) ∧
    ((fetchServices blankDevice (Except.error "Network Error") initialStore).2 =
        ⟨false, none, none, some "Network Error"⟩ ∧
      (fetchServices blankDevice (Except.error "Network Error") initialStore).1.services =
        some [] ∧
      (fetchServices blankDevice (Except.error "Network Error") initialStore).1.error =
        some "Network Error") :=
  ⟨(fetchServices_when_request_fails cachedDevice initialStore "Network Error").1
      "bundle" cachedBundle cachedServices rfl (by decide) rfl rfl,
    (fetchServices_when_request_fails blankDevice initialStore "Network Error").2 rfl⟩

/-- When the request succeeds, and when it fails with nothing usable in the
cache, `fetchServices` leaves `loading` false. -/
theorem fetchServices_loading_reset (dev : Device) (s : StoreState)
    (request : Except String (Option (List StoreService)))
    (h : (∃ services, request = Except.ok services) ∨
      (loadOfflineData dev { s with loading := true, error := none }).2 = none) :
    (fetchServices dev request s).1.loading = false := by
  cases request with
  | ok services => rfl
  | error message =>
    rcases h with ⟨services, hs⟩ | h
    · cases hs
    · unfold fetchServices
      simp only []
      generalize hl : loadOfflineData dev { s with loading := true, error := none } = r at h
      obtain ⟨loaded, offline⟩ := r
      simp only at h
      subst h
      rfl

/-- C25, at the failing input: when the request fails and a bundle is cached,
`fetchServices` returns with the store's `loading` flag still true; on the two
other paths (the request succeeds, the request fails with an empty cache) the
flag is false. -/
theorem fetchServices_offline_leaves_loading :
    (fetchServices cachedDevice (Except.error "Network Error") initialStore).2 =
      ⟨true, some cachedServices, some true, none⟩ ∧
    (fetchServices cachedDevice (Except.error "Network Error") initialStore).1.loading = true ∧
    (fetchServices cachedDevice (Except.ok (some cachedServices)) initialStore).1.loading =
      false ∧
    (fetchServices blankDevice (Except.error "Network Error") initialStore).1.loading =
      false := by
  refine ⟨by decide, by decide, by decide, by decide⟩

/-! ## The mobile store: saved services -/

/-- Saving keeps the list of saved ids free of duplicates. -/
theorem saveService_nodup (dev : Device) (s : StoreState) (id : String)
    (hs : s.savedServices.Nodup) : (saveService dev s id).1.savedServices.Nodup := by
  unfold saveService
  by_cases h : s.savedServices.contains id = true
  · rw [h]
    exact hs
  · have hmem : id ∉ s.savedServices := by simpa using h
    have hf : s.savedServices.contains id = false := by simpa using h
    rw [hf]
    show (s.savedServices ++ [id]).Nodup
    refine List.Nodup.append hs (List.nodup_singleton id) ?_
    intro a ha hb
    rw [List.mem_singleton] at hb
    subst hb
    exact hmem ha

/-- Removing keeps the list of saved ids free of duplicates. -/
theorem unsaveService_nodup (dev : Device) (s : StoreState) (id : String)
    (hs : s.savedServices.Nodup) : (unsaveService dev s id).1.savedServices.Nodup :=
  List.Nodup.filter _ hs

/-- C26: starting from a list of saved ids without duplicates, every sequence
of `saveService` and `unsaveService` calls leaves it without duplicates; and
`saveService(id)` on a list that already contains `id` changes neither the
state nor the storage. -/
theorem savedServices_duplicate_free (dev : Device) (s : StoreState)
    (hs : s.savedServices.Nodup) :
    (∀ calls, (runSavedCalls dev s calls).savedServices.Nodup) ∧
    (∀ id, id ∈ s.savedServices → saveService dev s id = (s, [])) := by
  constructor
  · intro calls
    induction calls generalizing s with
    | nil => exact hs
    | cons call rest ih =>
      cases call with
      | save id => exact ih _ (saveService_nodup dev s id hs)
      | unsave id => exact ih _ (unsaveService_nodup dev s id hs)
  · intro id hid
    have h : s.savedServices.contains id = true := by simpa using hid
    unfold saveService
    rw [h]
    rfl

theorem savedServices_duplicate_free_witness :
    (∀ calls, (runSavedCalls blankDevice initialStore calls).savedServices.Nodup) ∧
    (runSavedCalls blankDevice initialStore
      [SavedCall.save "s1", SavedCall.save "s3", SavedCall.save "s1", SavedCall.unsave "s3",
       SavedCall.save "s3"]).savedServices = ["s1", "s3"] ∧
    (∀ id, id ∈ ({ initialStore with savedServices := ["s1", "s3"] } : StoreState).savedServices →
      saveService blankDevice { initialStore with savedServices := ["s1", "s3"] } id =
        ({ initialStore with savedServices := ["s1", "s3"] }, [])) :=
  ⟨(savedServices_duplicate_free blankDevice initialStore List.nodup_nil).1,
    by decide,
    (savedServices_duplicate_free blankDevice
      { initialStore with savedServices := ["s1", "s3"] } (by decide)).2⟩

end SFHaven
